import Mathlib

/-!
Verification of the RockBlock AT-command driver (`rockblock.py`).

The driver is embedded shallowly: the serial transport is a scripted list of
raw input lines (an empty string models a read timeout, as `readline` returns
`""` after the 5-second timeout), and every side effect (raw write, message-log
append, sleep, raw read) is recorded in an explicit `ModemState`.  Python
exceptions become an `RBError` sum; unstructured Python failures
(IndexError, ValueError, TypeError, UnboundLocalError) are separate variants,
distinguished from the documented taxonomy by `RBError.structured`.
-/

set_option autoImplicit false
set_option maxRecDepth 8192

deriving instance DecidableEq for Except

namespace RockBlockSpec

/-- The error taxonomy of `rockblock.py` plus the unstructured Python runtime
errors its code can raise (these are NOT part of the documented taxonomy). -/
inductive RBError where
  | timeout (query : String) (num : Nat)
  | deviceError (error : String) (rsp : String)
  | expectationFailure (expected : String) (actual : String)
  | messageTooLong (msg : String)
  | incorrectContentLength (length : Int) (cont : String)
  | pyIndexError
  | pyValueError (arg : String)
  | pyTypeError
  | pyUnboundLocal (name : String)
  deriving DecidableEq, Repr

/-- Whether an error belongs to the documented error taxonomy (is an
instance of `RockBlockException`); the `py*` variants do not. -/
def RBError.structured : RBError → Bool
  | .timeout _ _ => true
  | .deviceError _ _ => true
  | .expectationFailure _ _ => true
  | .messageTooLong _ => true
  | .incorrectContentLength _ _ => true
  | _ => false

/-- Status returned by +SBDSX (Iridium Command Ref 5.152); a namedtuple in the
source. -/
structure SBDSXStatus where
  mo : Int
  momsn : Int
  mt : Int
  mtmsn : Int
  ra : Int
  msg_waiting : Int
  deriving DecidableEq, Repr

/-- Status returned by +SBDIX (Iridium Command Ref 5.144); a namedtuple in the
source. -/
structure SBDIXStatus where
  mo : Int
  momsn : Int
  mt : Int
  mtmsn : Int
  mt_len : Int
  mt_queued : Int
  deriving DecidableEq, Repr

/-- Observable state of a driver run: the remaining scripted input lines, the
raw strings written to the serial port, the message-log lines (timestamp
abstracted away), the sleeps performed, and the count of raw reads. -/
structure ModemState where
  input : List String
  written : List String
  msgLog : List String
  sleeps : List Nat
  reads : Nat
  deriving DecidableEq, Repr

/-- The driver monad: state threading plus an error result.  The state is kept
on error, matching Python where side effects before a raise persist. -/
def M (α : Type) : Type := ModemState → Except RBError α × ModemState

instance : Monad M where
  pure a := fun s => (Except.ok a, s)
  bind x f := fun s =>
    match x s with
    | (Except.ok a, s') => f a s'
    | (Except.error e, s') => (Except.error e, s')

/-- Raise an exception. -/
def throwE {α : Type} (e : RBError) : M α := fun s => (Except.error e, s)

/-- `self.port.readline().decode("ascii")`: pop the next scripted line, or
return `""` on timeout (script exhausted). -/
def _raw_read : M String := fun s =>
  match s.input with
  | [] => (Except.ok "", { s with reads := s.reads + 1 })
  | l :: rest => (Except.ok l, { s with input := rest, reads := s.reads + 1 })

/-- `self.port.write(msg.encode("ascii"))`. -/
def _raw_write (msg : String) : M Unit := fun s =>
  (Except.ok (), { s with written := s.written ++ [msg] })

/-- `time.sleep(n)`. -/
def sleep (n : Nat) : M Unit := fun s =>
  (Except.ok (), { s with sleeps := s.sleeps ++ [n] })

/-- `RockBlock._log_msg`: append one line to the message log (timestamp
abstracted). -/
def _log_msg (data : String) : M Unit := fun s =>
  (Except.ok (), { s with msgLog := s.msgLog ++ [data] })

/-! Executable models of the Python string primitives used by the driver
(`String.trim` and friends do not reduce definitionally, so the Python
semantics is given directly over the character list). -/

/-- Python's whitespace test for `str.strip()` (ASCII range). -/
def pyIsSpace (c : Char) : Bool :=
  c == ' ' || c == '\t' || c == '\n' || c == '\r' || c == '\x0b' || c == '\x0c'

/-- Python `s.strip()`. -/
def pyStrip (s : String) : String :=
  String.mk (((s.data.dropWhile pyIsSpace).reverse.dropWhile pyIsSpace).reverse)

/-- Python `s[:n]` for `n ≥ 0`. -/
def pyTake (n : Nat) (s : String) : String := String.mk (s.data.take n)

/-- Python `s[n:]` for `n ≥ 0`. -/
def pyDrop (n : Nat) (s : String) : String := String.mk (s.data.drop n)

/-- Python `s[-1:]`: the last character as a string, or `""`. -/
def pyLast (s : String) : String :=
  String.mk (match s.data.getLast? with | some c => [c] | none => [])

/-- Python `s[:-1]`. -/
def pyDropLast (s : String) : String := String.mk s.data.dropLast

/-- Helper for `pySplitComma`. -/
def splitCommaAux : List Char → List Char → List (List Char)
  | [], acc => [acc.reverse]
  | c :: cs, acc =>
    if c = ',' then acc.reverse :: splitCommaAux cs []
    else splitCommaAux cs (c :: acc)

/-- Python `s.split(",")`. -/
def pySplitComma (s : String) : List String :=
  (splitCommaAux s.data []).map String.mk

/-- `ATModem.command`: send `"AT" + cmd + "\r"`. -/
def command (cmd : String) : M Unit := _raw_write ("AT" ++ cmd ++ "\r")

/-- The retry loop inside `ATModem.response`:
`for i in range(retry): if rsp != "": break; rsp = self._raw_read()`. -/
def responseLoop : Nat → String → M String
  | 0, rsp => pure rsp
  | n + 1, rsp =>
    if rsp = "" then do
      let r ← _raw_read
      responseLoop n r
    else pure rsp

/-- `ATModem.response(expect, retry)`. -/
def response (expect : Option String) (retry : Nat) : M String := do
  let rsp ← _raw_read
  let rsp ← responseLoop retry rsp
  if rsp = "" then throwE (.timeout "Read" retry)
  else
    let rsp := pyStrip rsp
    match expect with
    | some e => if rsp = e then pure rsp else throwE (.expectationFailure e rsp)
    | none => pure rsp

/-! The data-parsing helpers of `rockblock.py`. -/

/-- General command response code: `RSP_OK = "0"`. -/
def RSP_OK : String := "0"

/-- Buffer id `MO_BUF = "0"`. -/
def MO_BUF : String := "0"

/-- Buffer id `MT_BUF = "1"`. -/
def MT_BUF : String := "1"

/-- Value of a nonempty all-digit character list. -/
def digitsVal : List Char → Option Nat
  | [] => none
  | cs =>
    if cs.all (fun c => c.isDigit)
      then some (cs.foldl (fun a c => a * 10 + (c.toNat - 48)) 0)
      else none

/-- Python `int(str)`: strip surrounding whitespace, optional sign, digits;
anything else raises ValueError (an unstructured error). -/
def pyInt (str : String) : Except RBError Int :=
  match (pyStrip str).data with
  | '+' :: cs =>
    (match digitsVal cs with
     | some n => Except.ok (Int.ofNat n)
     | none => Except.error (.pyValueError str))
  | '-' :: cs =>
    (match digitsVal cs with
     | some n => Except.ok (-(Int.ofNat n : Int))
     | none => Except.error (.pyValueError str))
  | cs =>
    (match digitsVal cs with
     | some n => Except.ok (Int.ofNat n)
     | none => Except.error (.pyValueError str))

/-- `parse_comma_list`: `[int(elm.strip()) for elm in txt.split(",")]`
(the strip is folded into `pyInt`). -/
def parse_comma_list (txt : String) : Except RBError (List Int) :=
  (pySplitComma txt).mapM pyInt

/-- `SBDIXStatus(*lst)`: the namedtuple constructor raises TypeError unless
exactly six values are supplied. -/
def mkSBDIX : List Int → Except RBError SBDIXStatus
  | [a, b, c, d, e, f] => Except.ok ⟨a, b, c, d, e, f⟩
  | _ => Except.error .pyTypeError

/-- `SBDSXStatus(*lst)`: TypeError unless exactly six values. -/
def mkSBDSX : List Int → Except RBError SBDSXStatus
  | [a, b, c, d, e, f] => Except.ok ⟨a, b, c, d, e, f⟩
  | _ => Except.error .pyTypeError

/-- Python `s[i]` on a string: the character, or IndexError. -/
def charAt (s : String) (i : Nat) : Except RBError Char :=
  match s.data[i]? with
  | some c => Except.ok c
  | none => Except.error .pyIndexError

/-- Lift a pure `Except` computation into the driver monad. -/
def liftE {α : Type} (x : Except RBError α) : M α := fun s => (x, s)

/-! The `RockBlock` driver methods. -/

/-- The forcing part of `RockBlock._setup_device` (everything after the
probe classified the line discipline as (echo, verbose)).  A first line
outside the classification cases leaves Python's local `echo` unbound; the
read of it in this part is then an UnboundLocalError. -/
def _setup_tail (echo verbose : Bool) : M Unit := do
  if echo then do
    command "E0"
    if verbose then do
      let _ ← response (some "ATE0") 0
      let _ ← response (some "OK") 0
      pure ()
    else do
      let _ ← response (some "ATE0\r0") 0
      pure ()
  else pure ()
  if verbose then do
    command "V0"
    let _ ← response (some RSP_OK) 0
    pure ()
  else pure ()
  command "+SBDMTA=0"
  let _ ← response (some RSP_OK) 0
  pure ()

/-- `RockBlock._setup_device`: probe the line discipline, then force it off
via `_setup_tail` and disable ring alerts. -/
def _setup_device : M Unit := do
  command ""
  let rsp ← response none 0
  let ev ←
    if rsp = "0" then pure (false, false)
    else if rsp = "AT\r0" then pure (true, false)
    else if rsp = "AT" ∨ rsp = "" then do
      let rspp ← response none 0
      if rspp = "OK" then pure (true, true) else pure (false, true)
    else (throwE (.pyUnboundLocal "echo") : M (Bool × Bool))
  _setup_tail ev.1 ev.2

/-- `RockBlock._reset_device`. -/
def _reset_device : M Unit := do
  command "E1V1"
  let _ ← response (some "") 0
  let _ ← response (some "OK") 0
  pure ()

/-- `RockBlock.check_sig_strength`. -/
def check_sig_strength : M Int := do
  command "+CSQF"
  let rsp ← response none 0
  if pyTake 6 rsp = "+CSQF:" then do
    let c ← liftE (charAt rsp 6)
    let strength ← liftE (pyInt (String.mk [c]))
    let _ ← response (some RSP_OK) 0
    pure strength
  else throwE (.deviceError "Error querying signal strength" rsp)

/-- `RockBlock._write_msg_to_buffer`. -/
def _write_msg_to_buffer (msg : String) : M Unit := do
  command "+SBDWT"
  let _ ← response (some "READY") 0
  _raw_write msg
  _raw_write "\r"
  let _ ← response (some RSP_OK) 0
  let _ ← response (some RSP_OK) 0
  pure ()

/-- `RockBlock._check_msstm`. -/
def _check_msstm : M Bool := do
  command "-MSSTM"
  let rsp ← response none 0
  let _ ← response (some RSP_OK) 0
  if pyTake 7 rsp = "-MSSTM:" then pure (pyDrop 8 rsp != "no network service")
  else throwE (.deviceError "Error querying network time" rsp)

/-- The retry loop of `RockBlock._msstm_ok` (fuel = remaining attempts out of
TIME_RETRIES = 20; the `for ... else` raises when the fuel runs out, and the
inter-attempt sleep is skipped after the last attempt). -/
def msstmLoop : Nat → M Unit
  | 0 => throwE (.timeout "Network time query" 20)
  | n + 1 => do
    let avail ← _check_msstm
    if avail then pure ()
    else do
      if n = 0 then pure () else sleep 1
      msstmLoop n

/-- `RockBlock._msstm_ok`. -/
def _msstm_ok : M Unit := msstmLoop 20

/-- The retry loop of `RockBlock._signal_ok` (SIGNAL_RETRIES = 3,
SIGNAL_DELAY = 10). -/
def signalLoop : Nat → M Unit
  | 0 => throwE (.timeout "Signal strength query" 3)
  | n + 1 => do
    let sig ← check_sig_strength
    if 2 ≤ sig then pure ()
    else do
      if n = 0 then pure () else sleep 10
      signalLoop n

/-- `RockBlock._signal_ok`. -/
def _signal_ok : M Unit := signalLoop 3

/-- The response-handling part of `RockBlock._session` (everything after the
command write; split out so the two command branches share it). -/
def _session_tail : M SBDIXStatus := do
  let rsp ← response none 5
  let _ ← response (some RSP_OK) 0
  if pyTake 7 rsp = "+SBDIX:" then do
    let l ← liftE (parse_comma_list (pyDrop 7 rsp))
    liftE (mkSBDIX l)
  else if pyTake 8 rsp = "+SBDIXA:" then do
    let l ← liftE (parse_comma_list (pyDrop 8 rsp))
    liftE (mkSBDIX l)
  else throwE (.deviceError "Error initiating satellite session" rsp)

/-- `RockBlock._session(a)`: one `+SBDIX`/`+SBDIXA` satellite session. -/
def _session (a : Bool) : M SBDIXStatus := do
  if a then command "+SBDIXA" else command "+SBDIX"
  _session_tail

/-- `RockBlock._clear_buffer`. -/
def _clear_buffer (buf_id : String) : M Unit := do
  command ("+SBDD" ++ buf_id)
  let _ ← response (some RSP_OK) 0
  let _ ← response (some RSP_OK) 0
  pure ()

/-- `RockBlock._read_msg_from_buffer(mt_len)`; the source default is
`mt_len = -1` meaning no expected length. -/
def _read_msg_from_buffer (mt_len : Int) : M String := do
  command "+SBDRT"
  let rsp ← response none 0
  if pyTake 7 rsp = "+SBDRT:" then do
    let cont ← response none 0
    if pyLast cont = "0" ∧ (mt_len = -1 ∨ (cont.length : Int) = mt_len + 1) then do
      let msg := pyDropLast cont
      _log_msg ("<--- " ++ msg)
      _clear_buffer MT_BUF
      pure msg
    else throwE (.incorrectContentLength mt_len cont)
  else throwE (.deviceError "Error reading message from device buffer" rsp)

/-- `RockBlock._check_status` (note: the `"0"` acknowledgement is consumed
before the comma list is parsed). -/
def _check_status : M SBDSXStatus := do
  command "+SBDSX"
  let rsp ← response none 0
  if pyTake 7 rsp = "+SBDSX:" then do
    let _ ← response (some RSP_OK) 0
    let l ← liftE (parse_comma_list (pyDrop 7 rsp))
    liftE (mkSBDSX l)
  else throwE (.deviceError "Error querying device status" rsp)

/-- The session retry loop of `RockBlock._send_buffer`
(SESSION_RETRIES = 3, SESSION_DELAY = 1; the Python `for ... else` raises
on exhaustion; the sleep is NOT skipped on the last failed attempt). -/
def sendLoop : Nat → List String → M (List String)
  | 0, _ => throwE (.timeout "Buffer send" 3)
  | n + 1, acc => do
    let status ← _session false
    let acc ←
      if status.mt = 1 then do
        let m ← _read_msg_from_buffer status.mt_len
        pure (acc ++ [m])
      else pure acc
    if status.mo ≤ 4 then do
      _clear_buffer MO_BUF
      pure acc
    else do
      sleep 1
      sendLoop n acc

/-- `RockBlock._send_buffer`. -/
def _send_buffer : M (List String) := do
  let st ← _check_status
  let acc ←
    if st.mt = 1 then do
      let m ← _read_msg_from_buffer (-1)
      pure [m]
    else pure ([] : List String)
  sendLoop 3 acc

/-- The session retry loop of `RockBlock._recv_buffer`. -/
def recvLoop (a : Bool) : Nat → M SBDIXStatus
  | 0 => throwE (.timeout "Buffer recv" 3)
  | n + 1 => do
    let status ← _session a
    if status.mt = 1 then pure status
    else do
      sleep 1
      recvLoop a n

/-- `RockBlock._recv_buffer(a)`. -/
def _recv_buffer (a : Bool) : M String := do
  let status ← recvLoop a 3
  _read_msg_from_buffer status.mt_len

/-- `RockBlock.send_recv(msg)`: note the source guards `len(msg) > 360`,
with error text "Maximum send size is 360 bytes". -/
def send_recv (msg : String) : M (List String) := do
  if 360 < msg.length then throwE (.messageTooLong "Maximum send size is 360 bytes")
  else do
    _write_msg_to_buffer msg
    _msstm_ok
    _signal_ok
    let incidental ← _send_buffer
    _log_msg ("---> " ++ msg)
    pure incidental

/-- `RockBlock.msg_waiting(status)` for a supplied (non-None) status. -/
def msg_waiting (status : SBDSXStatus) : Bool :=
  status.mt == 1 || status.ra == 1 || decide (0 < status.msg_waiting)

/-! Script-description helpers used only to state theorems about runs. -/

/-- A raw response line carrying an SBDIX status `st`, as `_session` parses it
through the `+SBDIX:` branch. -/
def SBDIXLine (raw : String) (st : SBDIXStatus) : Prop :=
  raw ≠ "" ∧ pyTake 7 (pyStrip raw) = "+SBDIX:" ∧
    parse_comma_list (pyDrop 7 (pyStrip raw)) =
      Except.ok [st.mo, st.momsn, st.mt, st.mtmsn, st.mt_len, st.mt_queued]

/-- A raw response line carrying an SBDSX status `st`, as `_check_status`
parses it. -/
def SBDSXLine (raw : String) (st : SBDSXStatus) : Prop :=
  raw ≠ "" ∧ pyTake 7 (pyStrip raw) = "+SBDSX:" ∧
    parse_comma_list (pyDrop 7 (pyStrip raw)) =
      Except.ok [st.mo, st.momsn, st.mt, st.mtmsn, st.ra, st.msg_waiting]

/-- A well-formed `+SBDRT` exchange whose content line is accepted when the
expected length is `len`: the header carries the prefix, and the content line
ends in '0' with stripped length `len + 1`. -/
def SBDRTSeg (hdr cont : String) (len : Int) : Prop :=
  hdr ≠ "" ∧ pyTake 7 (pyStrip hdr) = "+SBDRT:" ∧ cont ≠ "" ∧
    pyLast (pyStrip cont) = "0" ∧ ((pyStrip cont).length : Int) = len + 1

instance (raw : String) (st : SBDIXStatus) : Decidable (SBDIXLine raw st) :=
  inferInstanceAs (Decidable (raw ≠ "" ∧ pyTake 7 (pyStrip raw) = "+SBDIX:" ∧
    parse_comma_list (pyDrop 7 (pyStrip raw)) =
      Except.ok [st.mo, st.momsn, st.mt, st.mtmsn, st.mt_len, st.mt_queued]))

instance (raw : String) (st : SBDSXStatus) : Decidable (SBDSXLine raw st) :=
  inferInstanceAs (Decidable (raw ≠ "" ∧ pyTake 7 (pyStrip raw) = "+SBDSX:" ∧
    parse_comma_list (pyDrop 7 (pyStrip raw)) =
      Except.ok [st.mo, st.momsn, st.mt, st.mtmsn, st.ra, st.msg_waiting]))

instance (hdr cont : String) (len : Int) : Decidable (SBDRTSeg hdr cont len) :=
  inferInstanceAs (Decidable (hdr ≠ "" ∧ pyTake 7 (pyStrip hdr) = "+SBDRT:" ∧ cont ≠ "" ∧
    pyLast (pyStrip cont) = "0" ∧ ((pyStrip cont).length : Int) = len + 1))

/-- The `-MSSTM` response line for attempt outcome `b`. -/
def msstmLine (b : Bool) : String :=
  if b then "-MSSTM: 12abcd" else "-MSSTM: no network service"

/-- The scripted input for a sequence of `-MSSTM` attempt outcomes. -/
def msstmLines : List Bool → List String
  | [] => []
  | b :: bs => msstmLine b :: "0" :: msstmLines bs

/-- The wire bytes of the session command issued by `_session a`. -/
def sessionCmd (a : Bool) : String := if a then "AT+SBDIXA\r" else "AT+SBDIX\r"

/-- The input segment one `sendLoop`/`recvLoop` iteration consumes when the
session yields status `st`: the status line, its "0" acknowledgement, and an
MT read exchange iff `st.mt = 1`. -/
def sessSeg (l : String) (st : SBDIXStatus) (hdr cont : String) : List String :=
  [l, "0"] ++ (if st.mt = 1 then [hdr, cont, "0", "0"] else [])

/-- The incidental messages one session contributes to the returned list. -/
def mtVal (st : SBDIXStatus) (cont : String) : List String :=
  if st.mt = 1 then [pyDropLast (pyStrip cont)] else []

/-- The wire writes one `sendLoop` iteration performs before its success test
when the session yields status `st`. -/
def sessWrites (st : SBDIXStatus) : List String :=
  ["AT+SBDIX\r"] ++ (if st.mt = 1 then ["AT+SBDRT\r", "AT+SBDD1\r"] else [])

/-- The message-log lines one session contributes. -/
def mtLog (st : SBDIXStatus) (cont : String) : List String :=
  if st.mt = 1 then ["<--- " ++ pyDropLast (pyStrip cont)] else []

/-- The first-line classification table of `_setup_device`: stripped first
lines with defined behaviour in the source. -/
def probeTable : List String := ["0", "AT\r0", "AT", ""]

/-- Number of `+SBDIX` session commands among a list of written strings. -/
def sbdixCount (w : List String) : Nat := w.countP (fun x => x == "AT+SBDIX\r")

/-! Basic unfolding lemmas for the monad. -/

theorem bind_apply {α β : Type} (x : M α) (f : α → M β) (s : ModemState) :
    (x >>= f) s =
      match x s with
      | (Except.ok a, s') => f a s'
      | (Except.error e, s') => (Except.error e, s') := rfl

theorem pure_apply {α : Type} (a : α) (s : ModemState) :
    (pure a : M α) s = (Except.ok a, s) := rfl

theorem throwE_apply {α : Type} (e : RBError) (s : ModemState) :
    (throwE e : M α) s = (Except.error e, s) := rfl

theorem response_ok_none (raw : String) (h : raw ≠ "")
    (retry : Nat) (rest w lg : List String) (sl : List Nat) (rd : Nat) :
    response none retry ⟨raw :: rest, w, lg, sl, rd⟩ =
      (Except.ok (pyStrip raw), ⟨rest, w, lg, sl, rd + 1⟩) := by
  cases retry with
  | zero =>
    simp [response, responseLoop, bind_apply, _raw_read, pure_apply, h]
  | succ n =>
    simp [response, responseLoop, bind_apply, _raw_read, pure_apply, h]

theorem response_ok_expect (raw e : String) (h : raw ≠ "") (he : pyStrip raw = e)
    (retry : Nat) (rest w lg : List String) (sl : List Nat) (rd : Nat) :
    response (some e) retry ⟨raw :: rest, w, lg, sl, rd⟩ =
      (Except.ok e, ⟨rest, w, lg, sl, rd + 1⟩) := by
  cases retry with
  | zero =>
    simp [response, responseLoop, bind_apply, _raw_read, pure_apply, h, he]
  | succ n =>
    simp [response, responseLoop, bind_apply, _raw_read, pure_apply, h, he]

theorem response_expect_fail (raw e : String) (h : raw ≠ "") (he : pyStrip raw ≠ e)
    (retry : Nat) (rest w lg : List String) (sl : List Nat) (rd : Nat) :
    response (some e) retry ⟨raw :: rest, w, lg, sl, rd⟩ =
      (Except.error (.expectationFailure e (pyStrip raw)), ⟨rest, w, lg, sl, rd + 1⟩) := by
  cases retry with
  | zero =>
    simp [response, responseLoop, bind_apply, _raw_read, pure_apply, throwE_apply, h, he]
  | succ n =>
    simp [response, responseLoop, bind_apply, _raw_read, pure_apply, throwE_apply, h, he]

theorem responseLoop_empty (n : Nat) (rest w lg : List String) (sl : List Nat) (rd : Nat) :
    responseLoop n "" ⟨List.replicate n "" ++ rest, w, lg, sl, rd⟩ =
      (Except.ok "", ⟨rest, w, lg, sl, rd + n⟩) := by
  induction n generalizing rd with
  | zero => simp [responseLoop, pure_apply]
  | succ n ih =>
    rw [List.replicate_succ, List.cons_append]
    have hstep : responseLoop (n + 1) ""
        ⟨"" :: (List.replicate n "" ++ rest), w, lg, sl, rd⟩ =
        responseLoop n "" ⟨List.replicate n "" ++ rest, w, lg, sl, rd + 1⟩ := by
      simp [responseLoop, bind_apply, _raw_read]
    rw [hstep, ih]
    have harith : rd + 1 + n = rd + (n + 1) := by omega
    rw [harith]

/-- All raw reads empty and exhausted: `response` raises
Timeout{"Read", retry} after 1 + retry reads, whatever `retry` is. -/
theorem response_empty_timeout (expect : Option String) (retry : Nat)
    (rest w lg : List String) (sl : List Nat) (rd : Nat) :
    response expect retry ⟨List.replicate (retry + 1) "" ++ rest, w, lg, sl, rd⟩ =
      (Except.error (.timeout "Read" retry), ⟨rest, w, lg, sl, rd + 1 + retry⟩) := by
  have h1 : _raw_read ⟨List.replicate (retry + 1) "" ++ rest, w, lg, sl, rd⟩ =
      (Except.ok "", ⟨List.replicate retry "" ++ rest, w, lg, sl, rd + 1⟩) := by
    rw [List.replicate_succ, List.cons_append]
    rfl
  have h2 := responseLoop_empty retry rest w lg sl (rd + 1)
  simp [response, bind_apply, h1, h2, throwE]

theorem rawRead_ok (s : ModemState) :
    ∃ r s', _raw_read s = (Except.ok r, s') ∧ s'.written = s.written ∧
      s'.msgLog = s.msgLog ∧ s'.sleeps = s.sleeps := by
  obtain ⟨i, w, lg, sl, rd⟩ := s
  cases i <;> exact ⟨_, _, rfl, rfl, rfl, rfl⟩

theorem responseLoop_ok (n : Nat) (rsp : String) (s : ModemState) :
    ∃ r s', responseLoop n rsp s = (Except.ok r, s') ∧ s'.written = s.written ∧
      s'.msgLog = s.msgLog ∧ s'.sleeps = s.sleeps := by
  induction n generalizing rsp s with
  | zero => exact ⟨rsp, s, rfl, rfl, rfl, rfl⟩
  | succ n ih =>
    by_cases h : rsp = ""
    · obtain ⟨r1, s1, hr, hw, hl, hs⟩ := rawRead_ok s
      obtain ⟨r2, s2, hr2, hw2, hl2, hs2⟩ := ih r1 s1
      refine ⟨r2, s2, ?_, ?_, ?_, ?_⟩
      · simp [responseLoop, h, bind_apply, hr, hr2]
      · rw [hw2, hw]
      · rw [hl2, hl]
      · rw [hs2, hs]
    · exact ⟨rsp, s, by simp [responseLoop, h, pure_apply], rfl, rfl, rfl⟩

/-- Running `response`: it never writes to the port, the message log or the
sleep list, and it only ever fails with a Timeout or an ExpectationFailure
(both structured). -/
theorem response_run (expect : Option String) (retry : Nat) (s : ModemState) :
    ∃ res s', response expect retry s = (res, s') ∧
      s'.written = s.written ∧ s'.msgLog = s.msgLog ∧ s'.sleeps = s.sleeps ∧
      ∀ e, res = Except.error e → e.structured = true := by
  obtain ⟨r1, s1, hr, hw1, hl1, hs1⟩ := rawRead_ok s
  obtain ⟨r2, s2, hr2, hw2, hl2, hs2⟩ := responseLoop_ok retry r1 s1
  have hw := hw2.trans hw1
  have hl := hl2.trans hl1
  have hs := hs2.trans hs1
  have hrun : response expect retry s =
      (if r2 = "" then (throwE (.timeout "Read" retry) : M String) else
        match expect with
        | some e => if pyStrip r2 = e then pure (pyStrip r2)
            else throwE (.expectationFailure e (pyStrip r2))
        | none => pure (pyStrip r2)) s2 := by
    simp [response, bind_apply, hr, hr2]
  by_cases h2 : r2 = ""
  · refine ⟨Except.error (.timeout "Read" retry), s2, ?_, hw, hl, hs, ?_⟩
    · rw [hrun, if_pos h2, throwE_apply]
    · intro e he
      injection he with h
      rw [← h]
      rfl
  · cases expect with
    | none =>
      refine ⟨Except.ok (pyStrip r2), s2, ?_, hw, hl, hs, ?_⟩
      · rw [hrun, if_neg h2]
        rfl
      · intro e he
        simp at he
    | some e =>
      by_cases he : pyStrip r2 = e
      · refine ⟨Except.ok (pyStrip r2), s2, ?_, hw, hl, hs, ?_⟩
        · rw [hrun, if_neg h2]
          show (if pyStrip r2 = e then (pure (pyStrip r2) : M String)
            else throwE (.expectationFailure e (pyStrip r2))) s2 = _
          rw [if_pos he]
          rfl
        · intro e' he'
          simp at he'
      · refine ⟨Except.error (.expectationFailure e (pyStrip r2)), s2, ?_, hw, hl, hs, ?_⟩
        · rw [hrun, if_neg h2]
          show (if pyStrip r2 = e then (pure (pyStrip r2) : M String)
            else throwE (.expectationFailure e (pyStrip r2))) s2 = _
          rw [if_neg he, throwE_apply]
        · intro e' he'
          injection he' with h
          rw [← h]
          rfl

/-! Error-shape lemmas for the parsing helpers. -/

theorem pyInt_error (s : String) (e : RBError) (h : pyInt s = Except.error e) :
    e = .pyValueError s := by
  unfold pyInt at h
  split at h <;> split at h <;> simp_all

theorem mapM_pyInt_error (l : List String) (e : RBError)
    (h : l.mapM pyInt = Except.error e) : ∃ s, e = .pyValueError s := by
  induction l generalizing e with
  | nil =>
    rw [List.mapM_nil] at h
    exact Except.noConfusion h
  | cons a l ih =>
    rw [List.mapM_cons] at h
    cases ha : pyInt a with
    | error e' =>
      rw [ha] at h
      have h' : Except.error e' = Except.error e := h
      injection h' with hh
      refine ⟨a, ?_⟩
      rw [← hh]
      exact pyInt_error a e' ha
    | ok v =>
      rw [ha] at h
      have h' : (l.mapM pyInt >>= fun xs =>
          (pure (v :: xs) : Except RBError (List Int))) = Except.error e := h
      cases hm : l.mapM pyInt with
      | error e'' =>
        rw [hm] at h'
        have h'' : Except.error e'' = Except.error e := h'
        injection h'' with hh
        obtain ⟨s, hs⟩ := ih e'' hm
        refine ⟨s, ?_⟩
        rw [← hh]
        exact hs
      | ok xs =>
        rw [hm] at h'
        have h'' : (Except.ok (v :: xs) : Except RBError (List Int)) = Except.error e := h'
        exact Except.noConfusion h''

theorem parse_comma_list_error (t : String) (e : RBError)
    (h : parse_comma_list t = Except.error e) : ∃ s, e = .pyValueError s := by
  unfold parse_comma_list at h
  exact mapM_pyInt_error (pySplitComma t) e h

theorem mkSBDIX_error (l : List Int) (e : RBError) (h : mkSBDIX l = Except.error e) :
    e = .pyTypeError := by
  unfold mkSBDIX at h
  split at h <;> simp_all

theorem mkSBDSX_error (l : List Int) (e : RBError) (h : mkSBDSX l = Except.error e) :
    e = .pyTypeError := by
  unfold mkSBDSX at h
  split at h <;> simp_all

/-! Scripted-run lemmas for the driver methods. -/

theorem command_apply (cmd : String) (s : ModemState) :
    command cmd s =
      (Except.ok (), { s with written := s.written ++ ["AT" ++ cmd ++ "\r"] }) := rfl

theorem response_ok_zero (retry : Nat) (rest w lg : List String) (sl : List Nat) (rd : Nat) :
    response (some RSP_OK) retry ⟨"0" :: rest, w, lg, sl, rd⟩ =
      (Except.ok "0", ⟨rest, w, lg, sl, rd + 1⟩) := by
  have h := response_ok_expect "0" "0" (by decide) (by decide) retry rest w lg sl rd
  simpa [RSP_OK] using h

theorem check_status_run (raw : String) (st : SBDSXStatus) (hx : SBDSXLine raw st)
    (rest w lg : List String) (sl : List Nat) (rd : Nat) :
    _check_status ⟨raw :: "0" :: rest, w, lg, sl, rd⟩ =
      (Except.ok st, ⟨rest, w ++ ["AT+SBDSX\r"], lg, sl, rd + 2⟩) := by
  obtain ⟨h, hp, hl⟩ := hx
  simp [_check_status, bind_apply, command, _raw_write, response_ok_none raw h,
    response_ok_zero, hp, hl, liftE, mkSBDSX, pure_apply]

theorem session_run (a : Bool) (raw : String) (st : SBDIXStatus) (hx : SBDIXLine raw st)
    (rest w lg : List String) (sl : List Nat) (rd : Nat) :
    _session a ⟨raw :: "0" :: rest, w, lg, sl, rd⟩ =
      (Except.ok st, ⟨rest, w ++ [sessionCmd a], lg, sl, rd + 2⟩) := by
  obtain ⟨h, hp, hl⟩ := hx
  cases a <;>
    simp [_session, _session_tail, sessionCmd, bind_apply, command, _raw_write,
      response_ok_none raw h, response_ok_zero, hp, hl, liftE, mkSBDIX, pure_apply]

theorem clear_buffer_run (buf_id : String) (rest w lg : List String)
    (sl : List Nat) (rd : Nat) :
    _clear_buffer buf_id ⟨"0" :: "0" :: rest, w, lg, sl, rd⟩ =
      (Except.ok (), ⟨rest, w ++ ["AT" ++ ("+SBDD" ++ buf_id) ++ "\r"], lg, sl, rd + 2⟩) := by
  simp [_clear_buffer, bind_apply, command, _raw_write, response_ok_zero, pure_apply]

theorem read_msg_accept (mt_len : Int) (hdr cont : String)
    (hh : hdr ≠ "") (hp : pyTake 7 (pyStrip hdr) = "+SBDRT:") (hc : cont ≠ "")
    (hacc : pyLast (pyStrip cont) = "0" ∧
      (mt_len = -1 ∨ ((pyStrip cont).length : Int) = mt_len + 1))
    (rest w lg : List String) (sl : List Nat) (rd : Nat) :
    _read_msg_from_buffer mt_len ⟨hdr :: cont :: "0" :: "0" :: rest, w, lg, sl, rd⟩ =
      (Except.ok (pyDropLast (pyStrip cont)),
        ⟨rest, w ++ ["AT+SBDRT\r", "AT+SBDD1\r"],
          lg ++ ["<--- " ++ pyDropLast (pyStrip cont)], sl, rd + 4⟩) := by
  simp [_read_msg_from_buffer, bind_apply, command, _raw_write,
    response_ok_none hdr hh, response_ok_none cont hc, hp, iff_true_intro hacc,
    _log_msg, _clear_buffer, MT_BUF, response_ok_zero, pure_apply]

theorem read_msg_reject (mt_len : Int) (hdr cont : String)
    (hh : hdr ≠ "") (hp : pyTake 7 (pyStrip hdr) = "+SBDRT:") (hc : cont ≠ "")
    (hrej : ¬(pyLast (pyStrip cont) = "0" ∧
      (mt_len = -1 ∨ ((pyStrip cont).length : Int) = mt_len + 1)))
    (rest w lg : List String) (sl : List Nat) (rd : Nat) :
    _read_msg_from_buffer mt_len ⟨hdr :: cont :: rest, w, lg, sl, rd⟩ =
      (Except.error (.incorrectContentLength mt_len (pyStrip cont)),
        ⟨rest, w ++ ["AT+SBDRT\r"], lg, sl, rd + 2⟩) := by
  simp [_read_msg_from_buffer, bind_apply, command, _raw_write,
    response_ok_none hdr hh, response_ok_none cont hc, hp, iff_false_intro hrej,
    throwE_apply]

theorem write_msg_run (msg : String) (rest w lg : List String) (sl : List Nat) (rd : Nat) :
    _write_msg_to_buffer msg ⟨"READY" :: "0" :: "0" :: rest, w, lg, sl, rd⟩ =
      (Except.ok (), ⟨rest, w ++ ["AT+SBDWT\r", msg, "\r"], lg, sl, rd + 3⟩) := by
  simp [_write_msg_to_buffer, bind_apply, command, _raw_write,
    response_ok_expect "READY" "READY" (by decide) (by decide),
    response_ok_zero, pure_apply]

theorem check_msstm_run (b : Bool) (rest w lg : List String) (sl : List Nat) (rd : Nat) :
    _check_msstm ⟨msstmLine b :: "0" :: rest, w, lg, sl, rd⟩ =
      (Except.ok b, ⟨rest, w ++ ["AT-MSSTM\r"], lg, sl, rd + 2⟩) := by
  cases b <;>
    simp +decide [_check_msstm, msstmLine, bind_apply, command, _raw_write,
      response_ok_none "-MSSTM: 12abcd" (by decide),
      response_ok_none "-MSSTM: no network service" (by decide),
      response_ok_zero, pure_apply]

/-! Evaluation helpers for chained binds. -/

theorem bind_eval_ok {α β : Type} {x : M α} {s s' : ModemState} {a : α}
    (h : x s = (Except.ok a, s')) (f : α → M β) : (x >>= f) s = f a s' := by
  rw [bind_apply, h]

theorem bind_eval_error {α β : Type} {x : M α} {s s' : ModemState} {e : RBError}
    (h : x s = (Except.error e, s')) (f : α → M β) :
    (x >>= f) s = (Except.error e, s') := by
  rw [bind_apply, h]

theorem liftE_apply {α : Type} (x : Except RBError α) (s : ModemState) :
    liftE x s = (x, s) := rfl

/-! Arbitrary-state effect lemmas: what each driver method writes to the
port and the sleep list on EVERY run, successful or not. -/

theorem check_msstm_effects (s : ModemState) :
    ∃ res s', _check_msstm s = (res, s') ∧
      s'.written = s.written ++ ["AT-MSSTM\r"] ∧
      s'.msgLog = s.msgLog ∧ s'.sleeps = s.sleeps := by
  unfold _check_msstm
  rw [bind_eval_ok (command_apply "-MSSTM" s)]
  simp only [show ("AT" ++ "-MSSTM" ++ "\r" : String) = "AT-MSSTM\r" from rfl]
  set s1 : ModemState := { s with written := s.written ++ ["AT-MSSTM\r"] } with hs1
  obtain ⟨r1, s2, h1, hw1, hl1, hsl1, he1⟩ := response_run none 0 s1
  cases r1 with
  | error e =>
    rw [bind_eval_error h1]
    exact ⟨_, s2, rfl, hw1, hl1, hsl1⟩
  | ok rsp =>
    rw [bind_eval_ok h1]
    obtain ⟨r2, s3, h2, hw2, hl2, hsl2, he2⟩ := response_run (some RSP_OK) 0 s2
    cases r2 with
    | error e =>
      rw [bind_eval_error h2]
      exact ⟨_, s3, rfl, hw2.trans hw1, hl2.trans hl1, hsl2.trans hsl1⟩
    | ok r =>
      rw [bind_eval_ok h2]
      by_cases hp : pyTake 7 rsp = "-MSSTM:"
      · rw [if_pos hp, pure_apply]
        exact ⟨_, s3, rfl, hw2.trans hw1, hl2.trans hl1, hsl2.trans hsl1⟩
      · rw [if_neg hp, throwE_apply]
        exact ⟨_, s3, rfl, hw2.trans hw1, hl2.trans hl1, hsl2.trans hsl1⟩

theorem session_tail_effects (s : ModemState) :
    ∃ res s', _session_tail s = (res, s') ∧
      s'.written = s.written ∧ s'.msgLog = s.msgLog ∧ s'.sleeps = s.sleeps := by
  unfold _session_tail
  obtain ⟨r1, s2, h1, hw1, hl1, hsl1, he1⟩ := response_run none 5 s
  cases r1 with
  | error e =>
    rw [bind_eval_error h1]
    exact ⟨_, s2, rfl, hw1, hl1, hsl1⟩
  | ok rsp =>
    rw [bind_eval_ok h1]
    obtain ⟨r2, s3, h2, hw2, hl2, hsl2, he2⟩ := response_run (some RSP_OK) 0 s2
    have hw := hw2.trans hw1
    have hl := hl2.trans hl1
    have hs := hsl2.trans hsl1
    cases r2 with
    | error e =>
      rw [bind_eval_error h2]
      exact ⟨_, s3, rfl, hw, hl, hs⟩
    | ok r =>
      rw [bind_eval_ok h2]
      by_cases hp : pyTake 7 rsp = "+SBDIX:"
      · rw [if_pos hp]
        cases hpl : parse_comma_list (pyDrop 7 rsp) with
        | error e =>
          rw [bind_eval_error (liftE_apply (Except.error e) s3)]
          exact ⟨_, s3, rfl, hw, hl, hs⟩
        | ok l =>
          rw [bind_eval_ok (liftE_apply (Except.ok l) s3)]
          rw [liftE_apply]
          exact ⟨_, s3, rfl, hw, hl, hs⟩
      · rw [if_neg hp]
        by_cases hp2 : pyTake 8 rsp = "+SBDIXA:"
        · rw [if_pos hp2]
          cases hpl : parse_comma_list (pyDrop 8 rsp) with
          | error e =>
            rw [bind_eval_error (liftE_apply (Except.error e) s3)]
            exact ⟨_, s3, rfl, hw, hl, hs⟩
          | ok l =>
            rw [bind_eval_ok (liftE_apply (Except.ok l) s3)]
            rw [liftE_apply]
            exact ⟨_, s3, rfl, hw, hl, hs⟩
        · rw [if_neg hp2, throwE_apply]
          exact ⟨_, s3, rfl, hw, hl, hs⟩

theorem session_effects (a : Bool) (s : ModemState) :
    ∃ res s', _session a s = (res, s') ∧
      s'.written = s.written ++ [sessionCmd a] ∧
      s'.msgLog = s.msgLog ∧ s'.sleeps = s.sleeps := by
  unfold _session
  cases a with
  | false =>
    rw [if_neg (by decide)]
    rw [bind_eval_ok (command_apply "+SBDIX" s)]
    obtain ⟨res, s', h, hw, hl, hs⟩ :=
      session_tail_effects { s with written := s.written ++ ["AT" ++ "+SBDIX" ++ "\r"] }
    refine ⟨res, s', h, ?_, hl, hs⟩
    rw [hw]
    rfl
  | true =>
    rw [if_pos rfl]
    rw [bind_eval_ok (command_apply "+SBDIXA" s)]
    obtain ⟨res, s', h, hw, hl, hs⟩ :=
      session_tail_effects { s with written := s.written ++ ["AT" ++ "+SBDIXA" ++ "\r"] }
    refine ⟨res, s', h, ?_, hl, hs⟩
    rw [hw]
    rfl
theorem clear_buffer_effects (buf_id : String) (s : ModemState) :
    ∃ res s', _clear_buffer buf_id s = (res, s') ∧
      s'.written = s.written ++ ["AT" ++ ("+SBDD" ++ buf_id) ++ "\r"] ∧
      s'.msgLog = s.msgLog ∧ s'.sleeps = s.sleeps := by
  unfold _clear_buffer
  rw [bind_eval_ok (command_apply ("+SBDD" ++ buf_id) s)]
  set s1 : ModemState :=
    { s with written := s.written ++ ["AT" ++ ("+SBDD" ++ buf_id) ++ "\r"] }
  obtain ⟨r1, s2, h1, hw1, hl1, hsl1, he1⟩ := response_run (some RSP_OK) 0 s1
  cases r1 with
  | error e =>
    rw [bind_eval_error h1]
    exact ⟨_, s2, rfl, hw1, hl1, hsl1⟩
  | ok rsp =>
    rw [bind_eval_ok h1]
    obtain ⟨r2, s3, h2, hw2, hl2, hsl2, he2⟩ := response_run (some RSP_OK) 0 s2
    cases r2 with
    | error e =>
      rw [bind_eval_error h2]
      exact ⟨_, s3, rfl, hw2.trans hw1, hl2.trans hl1, hsl2.trans hsl1⟩
    | ok r =>
      rw [bind_eval_ok h2, pure_apply]
      exact ⟨_, s3, rfl, hw2.trans hw1, hl2.trans hl1, hsl2.trans hsl1⟩

theorem check_status_effects (s : ModemState) :
    ∃ res s', _check_status s = (res, s') ∧
      s'.written = s.written ++ ["AT+SBDSX\r"] ∧
      s'.msgLog = s.msgLog ∧ s'.sleeps = s.sleeps := by
  unfold _check_status
  rw [bind_eval_ok (command_apply "+SBDSX" s)]
  simp only [show ("AT" ++ "+SBDSX" ++ "\r" : String) = "AT+SBDSX\r" from rfl]
  set s1 : ModemState := { s with written := s.written ++ ["AT+SBDSX\r"] }
  obtain ⟨r1, s2, h1, hw1, hl1, hsl1, he1⟩ := response_run none 0 s1
  cases r1 with
  | error e =>
    rw [bind_eval_error h1]
    exact ⟨_, s2, rfl, hw1, hl1, hsl1⟩
  | ok rsp =>
    rw [bind_eval_ok h1]
    by_cases hp : pyTake 7 rsp = "+SBDSX:"
    · rw [if_pos hp]
      obtain ⟨r2, s3, h2, hw2, hl2, hsl2, he2⟩ := response_run (some RSP_OK) 0 s2
      have hw := hw2.trans hw1
      have hl := hl2.trans hl1
      have hs := hsl2.trans hsl1
      cases r2 with
      | error e =>
        rw [bind_eval_error h2]
        exact ⟨_, s3, rfl, hw, hl, hs⟩
      | ok r =>
        rw [bind_eval_ok h2]
        cases hpl : parse_comma_list (pyDrop 7 rsp) with
        | error e =>
          rw [bind_eval_error (liftE_apply (Except.error e) s3)]
          exact ⟨_, s3, rfl, hw, hl, hs⟩
        | ok l =>
          rw [bind_eval_ok (liftE_apply (Except.ok l) s3)]
          rw [liftE_apply]
          exact ⟨_, s3, rfl, hw, hl, hs⟩
    · rw [if_neg hp, throwE_apply]
      exact ⟨_, s2, rfl, hw1, hl1, hsl1⟩

theorem read_msg_effects (mt_len : Int) (s : ModemState) :
    ∃ res s', _read_msg_from_buffer mt_len s = (res, s') ∧
      (s'.written = s.written ++ ["AT+SBDRT\r"] ∨
        s'.written = s.written ++ ["AT+SBDRT\r", "AT+SBDD1\r"]) ∧
      s'.sleeps = s.sleeps := by
  unfold _read_msg_from_buffer
  rw [bind_eval_ok (command_apply "+SBDRT" s)]
  simp only [show ("AT" ++ "+SBDRT" ++ "\r" : String) = "AT+SBDRT\r" from rfl]
  set s1 : ModemState := { s with written := s.written ++ ["AT+SBDRT\r"] } with hs1def
  have hw1base : s1.written = s.written ++ ["AT+SBDRT\r"] := rfl
  obtain ⟨r1, s2, h1, hw1, hl1, hsl1, he1⟩ := response_run none 0 s1
  cases r1 with
  | error e =>
    rw [bind_eval_error h1]
    exact ⟨_, s2, rfl, Or.inl (hw1.trans hw1base), hsl1⟩
  | ok rsp =>
    rw [bind_eval_ok h1]
    by_cases hp : pyTake 7 rsp = "+SBDRT:"
    · rw [if_pos hp]
      obtain ⟨r2, s3, h2, hw2, hl2, hsl2, he2⟩ := response_run none 0 s2
      have hw : s3.written = s.written ++ ["AT+SBDRT\r"] := (hw2.trans hw1).trans hw1base
      have hs := hsl2.trans hsl1
      cases r2 with
      | error e =>
        rw [bind_eval_error h2]
        exact ⟨_, s3, rfl, Or.inl hw, hs⟩
      | ok cont =>
        rw [bind_eval_ok h2]
        by_cases hacc : pyLast cont = "0" ∧ (mt_len = -1 ∨ (cont.length : Int) = mt_len + 1)
        · rw [if_pos hacc]
          rw [bind_eval_ok (show _log_msg ("<--- " ++ pyDropLast cont) s3 =
            (Except.ok (), { s3 with msgLog := s3.msgLog ++ ["<--- " ++ pyDropLast cont] })
            from rfl)]
          obtain ⟨rc, s4, hc, hwc, hlc, hslc⟩ :=
            clear_buffer_effects MT_BUF
              { s3 with msgLog := s3.msgLog ++ ["<--- " ++ pyDropLast cont] }
          cases rc with
          | error e =>
            rw [bind_eval_error hc]
            refine ⟨_, s4, rfl, Or.inr ?_, hslc.trans hs⟩
            rw [hwc]
            show s3.written ++ ["AT" ++ ("+SBDD" ++ MT_BUF) ++ "\r"] = _
            rw [hw]
            simp [MT_BUF]
          | ok u =>
            rw [bind_eval_ok hc, pure_apply]
            refine ⟨_, s4, rfl, Or.inr ?_, hslc.trans hs⟩
            rw [hwc]
            show s3.written ++ ["AT" ++ ("+SBDD" ++ MT_BUF) ++ "\r"] = _
            rw [hw]
            simp [MT_BUF]
        · rw [if_neg hacc, throwE_apply]
          exact ⟨_, s3, rfl, Or.inl hw, hs⟩
    · rw [if_neg hp, throwE_apply]
      exact ⟨_, s2, rfl, Or.inl (hw1.trans hw1base), hsl1⟩

/-! Lemmas about the `_msstm_ok` retry loop. -/

theorem msstmLoop_allFalse (bs : List Bool) (hb : ∀ b ∈ bs, b = false)
    (rest w lg : List String) (sl : List Nat) (rd : Nat) :
    msstmLoop bs.length ⟨msstmLines bs ++ rest, w, lg, sl, rd⟩ =
      (Except.error (.timeout "Network time query" 20),
        ⟨rest, w ++ List.replicate bs.length "AT-MSSTM\r", lg,
          sl ++ List.replicate (bs.length - 1) 1, rd + 2 * bs.length⟩) := by
  induction bs generalizing w sl rd with
  | nil => simp [msstmLines, msstmLoop, throwE_apply]
  | cons b bs ih =>
    have hbf : b = false := hb b (by simp)
    subst hbf
    show msstmLoop (bs.length + 1) ⟨msstmLines (false :: bs) ++ rest, w, lg, sl, rd⟩ = _
    have hscript : msstmLines (false :: bs) ++ rest =
        msstmLine false :: "0" :: (msstmLines bs ++ rest) := by
      simp [msstmLines]
    rw [hscript]
    simp only [msstmLoop]
    rw [bind_eval_ok (check_msstm_run false (msstmLines bs ++ rest) w lg sl rd)]
    rw [if_neg (by decide : ¬(false = true))]
    by_cases hn : bs.length = 0
    · obtain rfl : bs = [] := List.length_eq_zero.mp hn
      rw [if_pos hn]
      rw [bind_eval_ok (pure_apply () _)]
      simp [msstmLines, msstmLoop, throwE_apply, Nat.mul_comm]
    · rw [if_neg hn]
      rw [bind_eval_ok (show sleep 1
          ⟨msstmLines bs ++ rest, w ++ ["AT-MSSTM\r"], lg, sl, rd + 2⟩ =
          (Except.ok (), ⟨msstmLines bs ++ rest, w ++ ["AT-MSSTM\r"], lg,
            sl ++ [1], rd + 2⟩) from rfl)]
      rw [ih (fun x hx => hb x (List.mem_cons_of_mem false hx)) (w ++ ["AT-MSSTM\r"])
        (sl ++ [1]) (rd + 2)]
      obtain ⟨m, hm⟩ : ∃ m, bs.length = m + 1 := ⟨bs.length - 1, by omega⟩
      have h1 : (w ++ ["AT-MSSTM\r"]) ++ List.replicate bs.length "AT-MSSTM\r" =
          w ++ List.replicate (bs.length + 1) "AT-MSSTM\r" := by
        simp [List.replicate_succ]
      have h2 : (sl ++ [1]) ++ List.replicate (bs.length - 1) 1 =
          sl ++ List.replicate (bs.length + 1 - 1) 1 := by
        rw [hm]
        simp [List.replicate_succ]
      have h3 : rd + 2 + 2 * bs.length = rd + 2 * (bs.length + 1) := by omega
      show _ = (_, ⟨rest, w ++ List.replicate (bs.length + 1) "AT-MSSTM\r", lg,
        sl ++ List.replicate (bs.length + 1 - 1) 1, rd + 2 * (bs.length + 1)⟩)
      rw [h1, h2, h3]

theorem msstmLoop_firstTrue (k n : Nat) (hk : k < n)
    (rest w lg : List String) (sl : List Nat) (rd : Nat) :
    msstmLoop n ⟨msstmLines (List.replicate k false ++ [true]) ++ rest, w, lg, sl, rd⟩ =
      (Except.ok (), ⟨rest, w ++ List.replicate (k + 1) "AT-MSSTM\r", lg,
        sl ++ List.replicate k 1, rd + 2 * (k + 1)⟩) := by
  induction k generalizing n w sl rd with
  | zero =>
    obtain ⟨m, rfl⟩ : ∃ m, n = m + 1 := ⟨n - 1, by omega⟩
    have hscript : msstmLines (List.replicate 0 false ++ [true]) ++ rest =
        msstmLine true :: "0" :: rest := by
      simp [msstmLines]
    rw [hscript]
    simp only [msstmLoop]
    rw [bind_eval_ok (check_msstm_run true rest w lg sl rd)]
    rw [if_pos rfl, pure_apply]
    simp
  | succ k ih =>
    obtain ⟨m, rfl⟩ : ∃ m, n = m + 1 := ⟨n - 1, by omega⟩
    have hk' : k < m := by omega
    have hscript : msstmLines (List.replicate (k + 1) false ++ [true]) ++ rest =
        msstmLine false :: "0" ::
          (msstmLines (List.replicate k false ++ [true]) ++ rest) := by
      simp [List.replicate_succ, msstmLines]
    rw [hscript]
    simp only [msstmLoop]
    rw [bind_eval_ok (check_msstm_run false
      (msstmLines (List.replicate k false ++ [true]) ++ rest) w lg sl rd)]
    rw [if_neg (by decide : ¬(false = true))]
    rw [if_neg (by omega : ¬(m = 0))]
    rw [bind_eval_ok (show sleep 1
        ⟨msstmLines (List.replicate k false ++ [true]) ++ rest,
          w ++ ["AT-MSSTM\r"], lg, sl, rd + 2⟩ =
        (Except.ok (), ⟨msstmLines (List.replicate k false ++ [true]) ++ rest,
          w ++ ["AT-MSSTM\r"], lg, sl ++ [1], rd + 2⟩) from rfl)]
    rw [ih m hk' (w ++ ["AT-MSSTM\r"]) (sl ++ [1]) (rd + 2)]
    have h1 : (w ++ ["AT-MSSTM\r"]) ++ List.replicate (k + 1) "AT-MSSTM\r" =
        w ++ List.replicate (k + 1 + 1) "AT-MSSTM\r" := by
      simp [List.replicate_succ]
    have h2 : (sl ++ [1]) ++ List.replicate k 1 =
        sl ++ List.replicate (k + 1) 1 := by
      simp [List.replicate_succ]
    have h3 : rd + 2 + 2 * (k + 1) = rd + 2 * (k + 1 + 1) := by omega
    rw [h1, h2, h3]

theorem msstmLoop_bound (n : Nat) (s : ModemState) :
    ∃ res s', msstmLoop n s = (res, s') ∧
      (∃ k, k ≤ n ∧ s'.written = s.written ++ List.replicate k "AT-MSSTM\r") ∧
      s'.sleeps.length ≤ s.sleeps.length + (n - 1) ∧ s'.msgLog = s.msgLog := by
  induction n generalizing s with
  | zero =>
    exact ⟨_, s, rfl, ⟨0, Nat.le_refl 0, by simp⟩, by omega, rfl⟩
  | succ n ih =>
    obtain ⟨rc, s1, hc, hwc, hlc, hslc⟩ := check_msstm_effects s
    simp only [msstmLoop]
    cases rc with
    | error e =>
      rw [bind_eval_error hc]
      exact ⟨_, s1, rfl, ⟨1, by omega, by simpa using hwc⟩,
        by rw [hslc]; omega, hlc⟩
    | ok avail =>
      rw [bind_eval_ok hc]
      cases avail with
      | true =>
        rw [if_pos rfl, pure_apply]
        exact ⟨_, s1, rfl, ⟨1, by omega, by simpa using hwc⟩,
          by rw [hslc]; omega, hlc⟩
      | false =>
        rw [if_neg (by decide : ¬(false = true))]
        by_cases hn : n = 0
        · subst hn
          rw [if_pos rfl]
          rw [bind_eval_ok (pure_apply () s1)]
          exact ⟨_, s1, rfl, ⟨1, by omega, by simpa using hwc⟩,
            by rw [hslc]; omega, hlc⟩
        · rw [if_neg hn]
          rw [bind_eval_ok (show sleep 1 s1 =
            (Except.ok (), { s1 with sleeps := s1.sleeps ++ [1] }) from rfl)]
          obtain ⟨res, s', h, ⟨k, hk, hw⟩, hsl, hlg⟩ :=
            ih { s1 with sleeps := s1.sleeps ++ [1] }
          refine ⟨res, s', h, ⟨k + 1, by omega, ?_⟩, ?_, hlg.trans hlc⟩
          · rw [hw]
            show s1.written ++ _ = _
            rw [hwc]
            simp [List.replicate_succ]
          · have hproj : ({ s1 with sleeps := s1.sleeps ++ [1] } : ModemState).sleeps
                = s1.sleeps ++ [1] := rfl
            rw [hproj] at hsl
            have hlen : (s1.sleeps ++ [1]).length = s.sleeps.length + 1 := by
              simp [hslc]
            omega

/-- `RockBlock._msstm_ok` = `msstmLoop 20`. -/
theorem msstm_ok_bound (s : ModemState) :
    ∃ res s', _msstm_ok s = (res, s') ∧
      (∃ k, k ≤ 20 ∧ s'.written = s.written ++ List.replicate k "AT-MSSTM\r") ∧
      s'.sleeps.length ≤ s.sleeps.length + 19 ∧ s'.msgLog = s.msgLog := by
  simpa [_msstm_ok] using msstmLoop_bound 20 s

/-! Lemmas about the `_send_buffer` and `_recv_buffer` session loops. -/

theorem sendLoop_succ (n : Nat) (acc : List String) (l : String) (st : SBDIXStatus)
    (hx : SBDIXLine l st) (hmo : st.mo ≤ 4)
    (hdr cont : String) (hseg : st.mt = 1 → SBDRTSeg hdr cont st.mt_len)
    (rest w lg : List String) (sl : List Nat) (rd : Nat) :
    ∃ rd', sendLoop (n + 1) acc
        ⟨sessSeg l st hdr cont ++ ("0" :: "0" :: rest), w, lg, sl, rd⟩ =
      (Except.ok (acc ++ mtVal st cont),
        ⟨rest, w ++ sessWrites st ++ ["AT+SBDD0\r"], lg ++ mtLog st cont, sl, rd'⟩) := by
  by_cases hmt : st.mt = 1
  · obtain ⟨hh, hp, hc0, hlast, hlen⟩ := hseg hmt
    refine ⟨rd + 8, ?_⟩
    have hscript : (sessSeg l st hdr cont ++ ("0" :: "0" :: rest) : List String) =
        l :: "0" :: (hdr :: cont :: "0" :: "0" :: ("0" :: "0" :: rest)) := by
      simp [sessSeg, hmt]
    rw [hscript]
    simp only [sendLoop]
    rw [bind_eval_ok (session_run false l st hx
      (hdr :: cont :: "0" :: "0" :: ("0" :: "0" :: rest)) w lg sl rd)]
    rw [if_pos hmt]
    have hread := read_msg_accept st.mt_len hdr cont hh hp hc0
      ⟨hlast, Or.inr hlen⟩ ("0" :: "0" :: rest) (w ++ [sessionCmd false]) lg sl (rd + 2)
    rw [bind_eval_ok hread]
    rw [bind_eval_ok (pure_apply (acc ++ [pyDropLast (pyStrip cont)]) _)]
    rw [if_pos hmo]
    rw [bind_eval_ok (clear_buffer_run MO_BUF rest
      (w ++ [sessionCmd false] ++ ["AT+SBDRT\r", "AT+SBDD1\r"])
      (lg ++ ["<--- " ++ pyDropLast (pyStrip cont)]) sl (rd + 2 + 4))]
    rw [pure_apply]
    simp [mtVal, mtLog, sessWrites, hmt, sessionCmd, MO_BUF]
  · refine ⟨rd + 4, ?_⟩
    have hscript : (sessSeg l st hdr cont ++ ("0" :: "0" :: rest) : List String) =
        l :: "0" :: ("0" :: "0" :: rest) := by
      simp [sessSeg, hmt]
    rw [hscript]
    simp only [sendLoop]
    rw [bind_eval_ok (session_run false l st hx ("0" :: "0" :: rest) w lg sl rd)]
    rw [if_neg hmt]
    rw [bind_eval_ok (pure_apply acc _)]
    rw [if_pos hmo]
    rw [bind_eval_ok (clear_buffer_run MO_BUF rest (w ++ [sessionCmd false]) lg sl (rd + 2))]
    rw [pure_apply]
    simp [mtVal, mtLog, sessWrites, hmt, sessionCmd, MO_BUF]

theorem sendLoop_fail (n : Nat) (acc : List String) (l : String) (st : SBDIXStatus)
    (hx : SBDIXLine l st) (hmo : ¬st.mo ≤ 4)
    (hdr cont : String) (hseg : st.mt = 1 → SBDRTSeg hdr cont st.mt_len)
    (rest w lg : List String) (sl : List Nat) (rd : Nat) :
    ∃ rd', sendLoop (n + 1) acc ⟨sessSeg l st hdr cont ++ rest, w, lg, sl, rd⟩ =
      sendLoop n (acc ++ mtVal st cont)
        ⟨rest, w ++ sessWrites st, lg ++ mtLog st cont, sl ++ [1], rd'⟩ := by
  by_cases hmt : st.mt = 1
  · obtain ⟨hh, hp, hc0, hlast, hlen⟩ := hseg hmt
    refine ⟨rd + 6, ?_⟩
    have hscript : (sessSeg l st hdr cont ++ rest : List String) =
        l :: "0" :: (hdr :: cont :: "0" :: "0" :: rest) := by
      simp [sessSeg, hmt]
    rw [hscript]
    simp only [sendLoop]
    rw [bind_eval_ok (session_run false l st hx
      (hdr :: cont :: "0" :: "0" :: rest) w lg sl rd)]
    rw [if_pos hmt]
    have hread := read_msg_accept st.mt_len hdr cont hh hp hc0
      ⟨hlast, Or.inr hlen⟩ rest (w ++ [sessionCmd false]) lg sl (rd + 2)
    rw [bind_eval_ok hread]
    rw [bind_eval_ok (pure_apply (acc ++ [pyDropLast (pyStrip cont)]) _)]
    rw [if_neg hmo]
    rw [bind_eval_ok (show sleep 1
        ⟨rest, w ++ [sessionCmd false] ++ ["AT+SBDRT\r", "AT+SBDD1\r"],
          lg ++ ["<--- " ++ pyDropLast (pyStrip cont)], sl, rd + 2 + 4⟩ =
        (Except.ok (), ⟨rest, w ++ [sessionCmd false] ++ ["AT+SBDRT\r", "AT+SBDD1\r"],
          lg ++ ["<--- " ++ pyDropLast (pyStrip cont)], sl ++ [1], rd + 2 + 4⟩) from rfl)]
    have harg : (w ++ [sessionCmd false] ++ ["AT+SBDRT\r", "AT+SBDD1\r"] : List String) =
        w ++ sessWrites st := by
      simp [sessWrites, hmt, sessionCmd]
    have harg2 : (lg ++ ["<--- " ++ pyDropLast (pyStrip cont)] : List String) =
        lg ++ mtLog st cont := by
      simp [mtLog, hmt]
    have harg3 : (acc ++ [pyDropLast (pyStrip cont)] : List String) =
        acc ++ mtVal st cont := by
      simp [mtVal, hmt]
    rw [harg, harg2, harg3]
  · refine ⟨rd + 2, ?_⟩
    have hscript : (sessSeg l st hdr cont ++ rest : List String) = l :: "0" :: rest := by
      simp [sessSeg, hmt]
    rw [hscript]
    simp only [sendLoop]
    rw [bind_eval_ok (session_run false l st hx rest w lg sl rd)]
    rw [if_neg hmt]
    rw [bind_eval_ok (pure_apply acc _)]
    rw [if_neg hmo]
    rw [bind_eval_ok (show sleep 1 ⟨rest, w ++ [sessionCmd false], lg, sl, rd + 2⟩ =
      (Except.ok (), ⟨rest, w ++ [sessionCmd false], lg, sl ++ [1], rd + 2⟩) from rfl)]
    have harg : (w ++ [sessionCmd false] : List String) = w ++ sessWrites st := by
      simp [sessWrites, hmt, sessionCmd]
    have harg2 : (lg : List String) = lg ++ mtLog st cont := by
      simp [mtLog, hmt]
    have harg3 : (acc : List String) = acc ++ mtVal st cont := by
      simp [mtVal, hmt]
    rw [harg]
    conv_lhs => rw [harg2, harg3]

theorem sendLoop_bound (n : Nat) (acc : List String) (s : ModemState) :
    ∃ res s', sendLoop n acc s = (res, s') ∧
      sbdixCount s'.written ≤ sbdixCount s.written + n := by
  induction n generalizing acc s with
  | zero => exact ⟨_, s, rfl, by omega⟩
  | succ n ih =>
    obtain ⟨rs, s1, hs1, hw1, hl1, hsl1⟩ := session_effects false s
    have hc1 : sbdixCount s1.written = sbdixCount s.written + 1 := by
      rw [hw1]
      simp +decide [sbdixCount, List.countP_append, List.countP_cons, sessionCmd]
    simp only [sendLoop]
    cases rs with
    | error e =>
      rw [bind_eval_error hs1]
      exact ⟨_, s1, rfl, by omega⟩
    | ok st =>
      rw [bind_eval_ok hs1]
      by_cases hmt : st.mt = 1
      · rw [if_pos hmt]
        obtain ⟨rr, s2, hr, hwr, hslr⟩ := read_msg_effects st.mt_len s1
        have hc2 : sbdixCount s2.written = sbdixCount s1.written := by
          cases hwr with
          | inl h =>
            rw [h]
            simp +decide [sbdixCount, List.countP_append, List.countP_cons]
          | inr h =>
            rw [h]
            simp +decide [sbdixCount, List.countP_append, List.countP_cons]
        cases rr with
        | error e =>
          rw [bind_eval_error hr]
          exact ⟨_, s2, rfl, by omega⟩
        | ok m =>
          rw [bind_eval_ok hr]
          rw [bind_eval_ok (pure_apply (acc ++ [m]) s2)]
          by_cases hmo : st.mo ≤ 4
          · rw [if_pos hmo]
            obtain ⟨rc, s3, hc, hwc, hlc, hslc⟩ := clear_buffer_effects MO_BUF s2
            have hc3 : sbdixCount s3.written = sbdixCount s2.written := by
              rw [hwc]
              simp +decide [sbdixCount, List.countP_append, List.countP_cons, MO_BUF]
            cases rc with
            | error e =>
              rw [bind_eval_error hc]
              exact ⟨_, s3, rfl, by omega⟩
            | ok u =>
              rw [bind_eval_ok hc, pure_apply]
              exact ⟨_, s3, rfl, by omega⟩
          · rw [if_neg hmo]
            rw [bind_eval_ok (show sleep 1 s2 =
              (Except.ok (), { s2 with sleeps := s2.sleeps ++ [1] }) from rfl)]
            obtain ⟨res, s', h, hcnt⟩ := ih (acc ++ [m]) { s2 with sleeps := s2.sleeps ++ [1] }
            have hc4 : sbdixCount ({ s2 with sleeps := s2.sleeps ++ [1] } : ModemState).written
                = sbdixCount s2.written := rfl
            exact ⟨res, s', h, by omega⟩
      · rw [if_neg hmt]
        rw [bind_eval_ok (pure_apply acc s1)]
        by_cases hmo : st.mo ≤ 4
        · rw [if_pos hmo]
          obtain ⟨rc, s3, hc, hwc, hlc, hslc⟩ := clear_buffer_effects MO_BUF s1
          have hc3 : sbdixCount s3.written = sbdixCount s1.written := by
            rw [hwc]
            simp +decide [sbdixCount, List.countP_append, List.countP_cons, MO_BUF]
          cases rc with
          | error e =>
            rw [bind_eval_error hc]
            exact ⟨_, s3, rfl, by omega⟩
          | ok u =>
            rw [bind_eval_ok hc, pure_apply]
            exact ⟨_, s3, rfl, by omega⟩
        · rw [if_neg hmo]
          rw [bind_eval_ok (show sleep 1 s1 =
            (Except.ok (), { s1 with sleeps := s1.sleeps ++ [1] }) from rfl)]
          obtain ⟨res, s', h, hcnt⟩ := ih acc { s1 with sleeps := s1.sleeps ++ [1] }
          have hc4 : sbdixCount ({ s1 with sleeps := s1.sleeps ++ [1] } : ModemState).written
              = sbdixCount s1.written := rfl
          exact ⟨res, s', h, by omega⟩

/-- Every run of `_send_buffer`, on any script, issues at most 3 `+SBDIX`
session commands. -/
theorem send_buffer_bound (s : ModemState) :
    ∃ res s', _send_buffer s = (res, s') ∧
      sbdixCount s'.written ≤ sbdixCount s.written + 3 := by
  unfold _send_buffer
  obtain ⟨rs, s1, hs1, hw1, hl1, hsl1⟩ := check_status_effects s
  have hc1 : sbdixCount s1.written = sbdixCount s.written := by
    rw [hw1]
    simp +decide [sbdixCount, List.countP_append, List.countP_cons]
  cases rs with
  | error e =>
    rw [bind_eval_error hs1]
    exact ⟨_, s1, rfl, by omega⟩
  | ok st =>
    rw [bind_eval_ok hs1]
    by_cases hmt : st.mt = 1
    · rw [if_pos hmt]
      obtain ⟨rr, s2, hr, hwr, hslr⟩ := read_msg_effects (-1) s1
      have hc2 : sbdixCount s2.written = sbdixCount s1.written := by
        cases hwr with
        | inl h =>
          rw [h]
          simp +decide [sbdixCount, List.countP_append, List.countP_cons]
        | inr h =>
          rw [h]
          simp +decide [sbdixCount, List.countP_append, List.countP_cons]
      cases rr with
      | error e =>
        rw [bind_eval_error hr]
        exact ⟨_, s2, rfl, by omega⟩
      | ok m =>
        rw [bind_eval_ok hr]
        rw [bind_eval_ok (pure_apply [m] s2)]
        obtain ⟨res, s', h, hcnt⟩ := sendLoop_bound 3 [m] s2
        exact ⟨res, s', h, by omega⟩
    · rw [if_neg hmt]
      rw [bind_eval_ok (pure_apply ([] : List String) s1)]
      obtain ⟨res, s', h, hcnt⟩ := sendLoop_bound 3 [] s1
      exact ⟨res, s', h, by omega⟩

/-- `_send_buffer` when the stale-MT pre-check reports no MT and the first
session succeeds (`mo ≤ 4`): one `+SBDIX`, then exactly one `+SBDD0` clear. -/
theorem send_buffer_succ1 (p : String) (pre : SBDSXStatus) (hp : SBDSXLine p pre)
    (hpre : pre.mt ≠ 1) (l1 : String) (st1 : SBDIXStatus) (hx1 : SBDIXLine l1 st1)
    (hmo1 : st1.mo ≤ 4) (hdr1 cont1 : String)
    (hseg1 : st1.mt = 1 → SBDRTSeg hdr1 cont1 st1.mt_len)
    (rest w lg : List String) (sl : List Nat) (rd : Nat) :
    ∃ rd', _send_buffer
        ⟨p :: "0" :: (sessSeg l1 st1 hdr1 cont1 ++ ("0" :: "0" :: rest)), w, lg, sl, rd⟩ =
      (Except.ok (mtVal st1 cont1),
        ⟨rest, w ++ ["AT+SBDSX\r"] ++ sessWrites st1 ++ ["AT+SBDD0\r"],
          lg ++ mtLog st1 cont1, sl, rd'⟩) := by
  unfold _send_buffer
  rw [bind_eval_ok (check_status_run p pre hp
    (sessSeg l1 st1 hdr1 cont1 ++ ("0" :: "0" :: rest)) w lg sl rd)]
  rw [if_neg hpre]
  rw [bind_eval_ok (pure_apply ([] : List String) _)]
  beta_reduce
  have h3 : (3 : Nat) = 2 + 1 := rfl
  rw [h3]
  obtain ⟨rd', hrun⟩ := sendLoop_succ 2 [] l1 st1 hx1 hmo1 hdr1 cont1 hseg1
    rest (w ++ ["AT+SBDSX\r"]) lg sl (rd + 2)
  rw [hrun]
  exact ⟨rd', by simp⟩

/-- `_send_buffer` when the first session is transient (`mo > 4`) and the
second succeeds: two `+SBDIX` commands, one sleep, one `+SBDD0`. -/
theorem send_buffer_succ2 (p : String) (pre : SBDSXStatus) (hp : SBDSXLine p pre)
    (hpre : pre.mt ≠ 1)
    (l1 : String) (st1 : SBDIXStatus) (hx1 : SBDIXLine l1 st1) (hmo1 : ¬st1.mo ≤ 4)
    (hdr1 cont1 : String) (hseg1 : st1.mt = 1 → SBDRTSeg hdr1 cont1 st1.mt_len)
    (l2 : String) (st2 : SBDIXStatus) (hx2 : SBDIXLine l2 st2) (hmo2 : st2.mo ≤ 4)
    (hdr2 cont2 : String) (hseg2 : st2.mt = 1 → SBDRTSeg hdr2 cont2 st2.mt_len)
    (rest w lg : List String) (sl : List Nat) (rd : Nat) :
    ∃ rd', _send_buffer
        ⟨p :: "0" :: (sessSeg l1 st1 hdr1 cont1 ++
          (sessSeg l2 st2 hdr2 cont2 ++ ("0" :: "0" :: rest))), w, lg, sl, rd⟩ =
      (Except.ok (mtVal st1 cont1 ++ mtVal st2 cont2),
        ⟨rest, w ++ ["AT+SBDSX\r"] ++ sessWrites st1 ++ sessWrites st2 ++ ["AT+SBDD0\r"],
          lg ++ mtLog st1 cont1 ++ mtLog st2 cont2, sl ++ [1], rd'⟩) := by
  unfold _send_buffer
  rw [bind_eval_ok (check_status_run p pre hp _ w lg sl rd)]
  rw [if_neg hpre]
  rw [bind_eval_ok (pure_apply ([] : List String) _)]
  beta_reduce
  have h3 : (3 : Nat) = 1 + 1 + 1 := rfl
  rw [h3]
  obtain ⟨rda, hrun1⟩ := sendLoop_fail (1 + 1) [] l1 st1 hx1 hmo1 hdr1 cont1 hseg1
    (sessSeg l2 st2 hdr2 cont2 ++ ("0" :: "0" :: rest)) (w ++ ["AT+SBDSX\r"]) lg sl (rd + 2)
  rw [hrun1]
  obtain ⟨rdb, hrun2⟩ := sendLoop_succ 1 (mtVal st1 cont1) l2 st2 hx2 hmo2 hdr2 cont2 hseg2
    rest (w ++ ["AT+SBDSX\r"] ++ sessWrites st1) (lg ++ mtLog st1 cont1) (sl ++ [1]) rda
  rw [show ([] ++ mtVal st1 cont1 : List String) = mtVal st1 cont1 from by simp] at hrun1 ⊢
  rw [hrun2]
  exact ⟨rdb, by simp⟩

/-- `_send_buffer` when the first two sessions are transient and the third
succeeds. -/
theorem send_buffer_succ3 (p : String) (pre : SBDSXStatus) (hp : SBDSXLine p pre)
    (hpre : pre.mt ≠ 1)
    (l1 : String) (st1 : SBDIXStatus) (hx1 : SBDIXLine l1 st1) (hmo1 : ¬st1.mo ≤ 4)
    (hdr1 cont1 : String) (hseg1 : st1.mt = 1 → SBDRTSeg hdr1 cont1 st1.mt_len)
    (l2 : String) (st2 : SBDIXStatus) (hx2 : SBDIXLine l2 st2) (hmo2 : ¬st2.mo ≤ 4)
    (hdr2 cont2 : String) (hseg2 : st2.mt = 1 → SBDRTSeg hdr2 cont2 st2.mt_len)
    (l3 : String) (st3 : SBDIXStatus) (hx3 : SBDIXLine l3 st3) (hmo3 : st3.mo ≤ 4)
    (hdr3 cont3 : String) (hseg3 : st3.mt = 1 → SBDRTSeg hdr3 cont3 st3.mt_len)
    (rest w lg : List String) (sl : List Nat) (rd : Nat) :
    ∃ rd', _send_buffer
        ⟨p :: "0" :: (sessSeg l1 st1 hdr1 cont1 ++ (sessSeg l2 st2 hdr2 cont2 ++
          (sessSeg l3 st3 hdr3 cont3 ++ ("0" :: "0" :: rest)))), w, lg, sl, rd⟩ =
      (Except.ok (mtVal st1 cont1 ++ mtVal st2 cont2 ++ mtVal st3 cont3),
        ⟨rest, w ++ ["AT+SBDSX\r"] ++ sessWrites st1 ++ sessWrites st2 ++
            sessWrites st3 ++ ["AT+SBDD0\r"],
          lg ++ mtLog st1 cont1 ++ mtLog st2 cont2 ++ mtLog st3 cont3,
          sl ++ [1, 1], rd'⟩) := by
  unfold _send_buffer
  rw [bind_eval_ok (check_status_run p pre hp _ w lg sl rd)]
  rw [if_neg hpre]
  rw [bind_eval_ok (pure_apply ([] : List String) _)]
  beta_reduce
  have h3 : (3 : Nat) = 1 + 1 + 1 := rfl
  rw [h3]
  obtain ⟨rda, hrun1⟩ := sendLoop_fail (1 + 1) [] l1 st1 hx1 hmo1 hdr1 cont1 hseg1
    (sessSeg l2 st2 hdr2 cont2 ++ (sessSeg l3 st3 hdr3 cont3 ++ ("0" :: "0" :: rest)))
    (w ++ ["AT+SBDSX\r"]) lg sl (rd + 2)
  rw [hrun1]
  obtain ⟨rdb, hrun2⟩ := sendLoop_fail 1 ([] ++ mtVal st1 cont1) l2 st2 hx2 hmo2
    hdr2 cont2 hseg2 (sessSeg l3 st3 hdr3 cont3 ++ ("0" :: "0" :: rest))
    (w ++ ["AT+SBDSX\r"] ++ sessWrites st1) (lg ++ mtLog st1 cont1) (sl ++ [1]) rda
  rw [hrun2]
  obtain ⟨rdc, hrun3⟩ := sendLoop_succ 0 ([] ++ mtVal st1 cont1 ++ mtVal st2 cont2)
    l3 st3 hx3 hmo3 hdr3 cont3 hseg3 rest
    (w ++ ["AT+SBDSX\r"] ++ sessWrites st1 ++ sessWrites st2)
    (lg ++ mtLog st1 cont1 ++ mtLog st2 cont2) (sl ++ [1] ++ [1]) rdb
  rw [hrun3]
  refine ⟨rdc, ?_⟩
  simp

/-- `_send_buffer` when all three sessions are transient: Timeout{"Buffer
send", 3}, and the wire trace contains no `+SBDD0` clear. -/
theorem send_buffer_fail3 (p : String) (pre : SBDSXStatus) (hp : SBDSXLine p pre)
    (hpre : pre.mt ≠ 1)
    (l1 : String) (st1 : SBDIXStatus) (hx1 : SBDIXLine l1 st1) (hmo1 : ¬st1.mo ≤ 4)
    (hdr1 cont1 : String) (hseg1 : st1.mt = 1 → SBDRTSeg hdr1 cont1 st1.mt_len)
    (l2 : String) (st2 : SBDIXStatus) (hx2 : SBDIXLine l2 st2) (hmo2 : ¬st2.mo ≤ 4)
    (hdr2 cont2 : String) (hseg2 : st2.mt = 1 → SBDRTSeg hdr2 cont2 st2.mt_len)
    (l3 : String) (st3 : SBDIXStatus) (hx3 : SBDIXLine l3 st3) (hmo3 : ¬st3.mo ≤ 4)
    (hdr3 cont3 : String) (hseg3 : st3.mt = 1 → SBDRTSeg hdr3 cont3 st3.mt_len)
    (rest w lg : List String) (sl : List Nat) (rd : Nat) :
    ∃ rd', _send_buffer
        ⟨p :: "0" :: (sessSeg l1 st1 hdr1 cont1 ++ (sessSeg l2 st2 hdr2 cont2 ++
          (sessSeg l3 st3 hdr3 cont3 ++ rest))), w, lg, sl, rd⟩ =
      (Except.error (.timeout "Buffer send" 3),
        ⟨rest, w ++ ["AT+SBDSX\r"] ++ sessWrites st1 ++ sessWrites st2 ++ sessWrites st3,
          lg ++ mtLog st1 cont1 ++ mtLog st2 cont2 ++ mtLog st3 cont3,
          sl ++ [1, 1, 1], rd'⟩) := by
  unfold _send_buffer
  rw [bind_eval_ok (check_status_run p pre hp _ w lg sl rd)]
  rw [if_neg hpre]
  rw [bind_eval_ok (pure_apply ([] : List String) _)]
  beta_reduce
  have h3 : (3 : Nat) = 1 + 1 + 1 := rfl
  rw [h3]
  obtain ⟨rda, hrun1⟩ := sendLoop_fail (1 + 1) [] l1 st1 hx1 hmo1 hdr1 cont1 hseg1
    (sessSeg l2 st2 hdr2 cont2 ++ (sessSeg l3 st3 hdr3 cont3 ++ rest))
    (w ++ ["AT+SBDSX\r"]) lg sl (rd + 2)
  rw [hrun1]
  obtain ⟨rdb, hrun2⟩ := sendLoop_fail 1 ([] ++ mtVal st1 cont1) l2 st2 hx2 hmo2
    hdr2 cont2 hseg2 (sessSeg l3 st3 hdr3 cont3 ++ rest)
    (w ++ ["AT+SBDSX\r"] ++ sessWrites st1) (lg ++ mtLog st1 cont1) (sl ++ [1]) rda
  rw [hrun2]
  obtain ⟨rdc, hrun3⟩ := sendLoop_fail 0 ([] ++ mtVal st1 cont1 ++ mtVal st2 cont2)
    l3 st3 hx3 hmo3 hdr3 cont3 hseg3 rest
    (w ++ ["AT+SBDSX\r"] ++ sessWrites st1 ++ sessWrites st2)
    (lg ++ mtLog st1 cont1 ++ mtLog st2 cont2) (sl ++ [1] ++ [1]) rdb
  rw [hrun3]
  refine ⟨rdc, ?_⟩
  show (Except.error (RBError.timeout "Buffer send" 3), _) = _
  simp

/-- `_recv_buffer` when three sessions in a row report no MT (`mt ≠ 1`, e.g.
`mt = 0` or the error value `mt = 2`): Timeout{"Buffer recv", 3}, one sleep
per failed attempt, and no `+SBDRT` read is attempted. -/
theorem recv_buffer_fail3 (a : Bool)
    (l1 : String) (st1 : SBDIXStatus) (hx1 : SBDIXLine l1 st1) (hm1 : st1.mt ≠ 1)
    (l2 : String) (st2 : SBDIXStatus) (hx2 : SBDIXLine l2 st2) (hm2 : st2.mt ≠ 1)
    (l3 : String) (st3 : SBDIXStatus) (hx3 : SBDIXLine l3 st3) (hm3 : st3.mt ≠ 1)
    (rest w lg : List String) (sl : List Nat) (rd : Nat) :
    _recv_buffer a ⟨l1 :: "0" :: l2 :: "0" :: l3 :: "0" :: rest, w, lg, sl, rd⟩ =
      (Except.error (.timeout "Buffer recv" 3),
        ⟨rest, w ++ [sessionCmd a, sessionCmd a, sessionCmd a], lg,
          sl ++ [1, 1, 1], rd + 6⟩) := by
  have hloop : recvLoop a 3 ⟨l1 :: "0" :: l2 :: "0" :: l3 :: "0" :: rest, w, lg, sl, rd⟩ =
      (Except.error (.timeout "Buffer recv" 3),
        ⟨rest, w ++ [sessionCmd a, sessionCmd a, sessionCmd a], lg,
          sl ++ [1, 1, 1], rd + 6⟩) := by
    have h3 : (3 : Nat) = 1 + 1 + 1 := rfl
    rw [h3]
    simp only [recvLoop]
    rw [bind_eval_ok (session_run a l1 st1 hx1 (l2 :: "0" :: l3 :: "0" :: rest) w lg sl rd)]
    rw [if_neg hm1]
    rw [bind_eval_ok (show sleep 1
      ⟨l2 :: "0" :: l3 :: "0" :: rest, w ++ [sessionCmd a], lg, sl, rd + 2⟩ =
      (Except.ok (), ⟨l2 :: "0" :: l3 :: "0" :: rest, w ++ [sessionCmd a], lg,
        sl ++ [1], rd + 2⟩) from rfl)]
    rw [bind_eval_ok (session_run a l2 st2 hx2 (l3 :: "0" :: rest)
      (w ++ [sessionCmd a]) lg (sl ++ [1]) (rd + 2))]
    rw [if_neg hm2]
    rw [bind_eval_ok (show sleep 1
      ⟨l3 :: "0" :: rest, w ++ [sessionCmd a] ++ [sessionCmd a], lg, sl ++ [1], rd + 4⟩ =
      (Except.ok (), ⟨l3 :: "0" :: rest, w ++ [sessionCmd a] ++ [sessionCmd a], lg,
        sl ++ [1] ++ [1], rd + 4⟩) from rfl)]
    rw [bind_eval_ok (session_run a l3 st3 hx3 rest
      (w ++ [sessionCmd a] ++ [sessionCmd a]) lg (sl ++ [1] ++ [1]) (rd + 4))]
    rw [if_neg hm3]
    rw [bind_eval_ok (show sleep 1
      ⟨rest, w ++ [sessionCmd a] ++ [sessionCmd a] ++ [sessionCmd a], lg,
        sl ++ [1] ++ [1], rd + 6⟩ =
      (Except.ok (), ⟨rest, w ++ [sessionCmd a] ++ [sessionCmd a] ++ [sessionCmd a], lg,
        sl ++ [1] ++ [1] ++ [1], rd + 6⟩) from rfl)]
    show (Except.error (RBError.timeout "Buffer recv" 3), _) = _
    simp
  unfold _recv_buffer
  rw [bind_eval_error hloop]

/-! Arity failures of the namedtuple constructors. -/

theorem mkSBDSX_arity (l : List Int) (h : l.length ≠ 6) :
    mkSBDSX l = Except.error .pyTypeError := by
  unfold mkSBDSX
  split <;> simp_all

theorem mkSBDIX_arity (l : List Int) (h : l.length ≠ 6) :
    mkSBDIX l = Except.error .pyTypeError := by
  unfold mkSBDIX
  split <;> simp_all

/-! Malformed comma lists behind a well-formed prefix (for `_check_status`
and `_session`). -/

theorem check_status_badparse (raw : String) (hr : raw ≠ "")
    (hp : pyTake 7 (pyStrip raw) = "+SBDSX:") (e : RBError)
    (hpl : parse_comma_list (pyDrop 7 (pyStrip raw)) = Except.error e)
    (rest w lg : List String) (sl : List Nat) (rd : Nat) :
    _check_status ⟨raw :: "0" :: rest, w, lg, sl, rd⟩ =
      (Except.error e, ⟨rest, w ++ ["AT+SBDSX\r"], lg, sl, rd + 2⟩) := by
  simp [_check_status, bind_apply, command, _raw_write, response_ok_none raw hr,
    response_ok_zero, hp, hpl, liftE, throwE_apply]

theorem check_status_badarity (raw : String) (hr : raw ≠ "")
    (hp : pyTake 7 (pyStrip raw) = "+SBDSX:") (l : List Int)
    (hpl : parse_comma_list (pyDrop 7 (pyStrip raw)) = Except.ok l)
    (hlen : l.length ≠ 6)
    (rest w lg : List String) (sl : List Nat) (rd : Nat) :
    _check_status ⟨raw :: "0" :: rest, w, lg, sl, rd⟩ =
      (Except.error .pyTypeError, ⟨rest, w ++ ["AT+SBDSX\r"], lg, sl, rd + 2⟩) := by
  simp [_check_status, bind_apply, command, _raw_write, response_ok_none raw hr,
    response_ok_zero, hp, hpl, liftE, mkSBDSX_arity l hlen, throwE_apply]

theorem session_badparse (a : Bool) (raw : String) (hr : raw ≠ "")
    (hp : pyTake 7 (pyStrip raw) = "+SBDIX:") (e : RBError)
    (hpl : parse_comma_list (pyDrop 7 (pyStrip raw)) = Except.error e)
    (rest w lg : List String) (sl : List Nat) (rd : Nat) :
    _session a ⟨raw :: "0" :: rest, w, lg, sl, rd⟩ =
      (Except.error e, ⟨rest, w ++ [sessionCmd a], lg, sl, rd + 2⟩) := by
  cases a <;>
    simp [_session, _session_tail, sessionCmd, bind_apply, command, _raw_write,
      response_ok_none raw hr, response_ok_zero, hp, hpl, liftE, throwE_apply]

theorem session_badparse_alert (a : Bool) (raw : String) (hr : raw ≠ "")
    (hp7 : pyTake 7 (pyStrip raw) ≠ "+SBDIX:")
    (hp8 : pyTake 8 (pyStrip raw) = "+SBDIXA:") (e : RBError)
    (hpl : parse_comma_list (pyDrop 8 (pyStrip raw)) = Except.error e)
    (rest w lg : List String) (sl : List Nat) (rd : Nat) :
    _session a ⟨raw :: "0" :: rest, w, lg, sl, rd⟩ =
      (Except.error e, ⟨rest, w ++ [sessionCmd a], lg, sl, rd + 2⟩) := by
  cases a <;>
    simp [_session, _session_tail, sessionCmd, bind_apply, command, _raw_write,
      response_ok_none raw hr, response_ok_zero, hp7, hp8, hpl, liftE, throwE_apply]

theorem session_badarity (a : Bool) (raw : String) (hr : raw ≠ "")
    (hp : pyTake 7 (pyStrip raw) = "+SBDIX:") (l : List Int)
    (hpl : parse_comma_list (pyDrop 7 (pyStrip raw)) = Except.ok l)
    (hlen : l.length ≠ 6)
    (rest w lg : List String) (sl : List Nat) (rd : Nat) :
    _session a ⟨raw :: "0" :: rest, w, lg, sl, rd⟩ =
      (Except.error .pyTypeError, ⟨rest, w ++ [sessionCmd a], lg, sl, rd + 2⟩) := by
  cases a <;>
    simp [_session, _session_tail, sessionCmd, bind_apply, command, _raw_write,
      response_ok_none raw hr, response_ok_zero, hp, hpl, liftE,
      mkSBDIX_arity l hlen, throwE_apply]

/-! Scripted runs of `check_sig_strength`. -/

theorem sig_run_ok (raw : String) (hr : raw ≠ "")
    (hp : pyTake 6 (pyStrip raw) = "+CSQF:")
    (c : Char) (hc : (pyStrip raw).data[6]? = some c) (v : Int)
    (hv : pyInt (String.mk [c]) = Except.ok v)
    (rest w lg : List String) (sl : List Nat) (rd : Nat) :
    check_sig_strength ⟨raw :: "0" :: rest, w, lg, sl, rd⟩ =
      (Except.ok v, ⟨rest, w ++ ["AT+CSQF\r"], lg, sl, rd + 2⟩) := by
  simp [check_sig_strength, bind_apply, command, _raw_write, response_ok_none raw hr,
    hp, charAt, hc, hv, liftE, response_ok_zero, pure_apply]

theorem sig_prefix_fail (raw : String) (hr : raw ≠ "")
    (hp : pyTake 6 (pyStrip raw) ≠ "+CSQF:")
    (rest w lg : List String) (sl : List Nat) (rd : Nat) :
    check_sig_strength ⟨raw :: rest, w, lg, sl, rd⟩ =
      (Except.error (.deviceError "Error querying signal strength" (pyStrip raw)),
        ⟨rest, w ++ ["AT+CSQF\r"], lg, sl, rd + 1⟩) := by
  simp [check_sig_strength, bind_apply, command, _raw_write, response_ok_none raw hr,
    hp, throwE_apply]

theorem sig_index_fail (raw : String) (hr : raw ≠ "")
    (hp : pyTake 6 (pyStrip raw) = "+CSQF:")
    (hc : (pyStrip raw).data[6]? = none)
    (rest w lg : List String) (sl : List Nat) (rd : Nat) :
    check_sig_strength ⟨raw :: rest, w, lg, sl, rd⟩ =
      (Except.error .pyIndexError, ⟨rest, w ++ ["AT+CSQF\r"], lg, sl, rd + 1⟩) := by
  simp [check_sig_strength, bind_apply, command, _raw_write, response_ok_none raw hr,
    hp, charAt, hc, liftE, throwE_apply]

theorem sig_value_fail (raw : String) (hr : raw ≠ "")
    (hp : pyTake 6 (pyStrip raw) = "+CSQF:")
    (c : Char) (hc : (pyStrip raw).data[6]? = some c) (e : RBError)
    (hv : pyInt (String.mk [c]) = Except.error e)
    (rest w lg : List String) (sl : List Nat) (rd : Nat) :
    check_sig_strength ⟨raw :: rest, w, lg, sl, rd⟩ =
      (Except.error e, ⟨rest, w ++ ["AT+CSQF\r"], lg, sl, rd + 1⟩) := by
  simp [check_sig_strength, bind_apply, command, _raw_write, response_ok_none raw hr,
    hp, charAt, hc, hv, liftE, throwE_apply]

/-! Classification of `_setup_device` runs. -/

theorem setup_tail_run (echo verbose : Bool) (s : ModemState) :
    ∃ res s', _setup_tail echo verbose s = (res, s') ∧
      (∀ e, res = Except.error e → e.structured = true) ∧
      (res = Except.ok () → s'.written.getLast? = some "AT+SBDMTA=0\r") := by
  have tail2 : ∀ (t : ModemState),
      ∃ res s', (do
        command "+SBDMTA=0"
        let _ ← response (some RSP_OK) 0
        pure () : M Unit) t = (res, s') ∧
        (∀ e, res = Except.error e → e.structured = true) ∧
        (res = Except.ok () → s'.written.getLast? = some "AT+SBDMTA=0\r") := by
    intro t
    rw [bind_eval_ok (command_apply "+SBDMTA=0" t)]
    set t1 : ModemState :=
      { t with written := t.written ++ ["AT" ++ "+SBDMTA=0" ++ "\r"] } with ht1
    obtain ⟨r1, t2, h1, hw1, hl1, hsl1, he1⟩ := response_run (some RSP_OK) 0 t1
    cases r1 with
    | error e =>
      rw [bind_eval_error h1]
      refine ⟨_, t2, rfl, ?_, ?_⟩
      · intro e' he'
        injection he' with hh
        rw [← hh]
        exact he1 e rfl
      · intro h
        simp at h
    | ok r =>
      rw [bind_eval_ok h1, pure_apply]
      refine ⟨_, t2, rfl, ?_, ?_⟩
      · intro e' he'
        simp at he'
      · intro _
        rw [hw1]
        show (t.written ++ ["AT" ++ "+SBDMTA=0" ++ "\r"]).getLast? = _
        rw [List.getLast?_concat]
        rfl
  have tail1 : ∀ (t : ModemState),
      ∃ res s', (do
        if verbose then do
          command "V0"
          let _ ← response (some RSP_OK) 0
          pure ()
        else pure ()
        command "+SBDMTA=0"
        let _ ← response (some RSP_OK) 0
        pure () : M Unit) t = (res, s') ∧
        (∀ e, res = Except.error e → e.structured = true) ∧
        (res = Except.ok () → s'.written.getLast? = some "AT+SBDMTA=0\r") := by
    intro t
    cases verbose with
    | false =>
      rw [if_neg (by decide : ¬(false = true))]
      rw [bind_eval_ok (pure_apply () t)]
      exact tail2 t
    | true =>
      rw [if_pos rfl]
      rw [bind_eval_ok (command_apply "V0" t)]
      set t1 : ModemState := { t with written := t.written ++ ["AT" ++ "V0" ++ "\r"] }
      obtain ⟨r1, t2, h1, hw1, hl1, hsl1, he1⟩ := response_run (some RSP_OK) 0 t1
      cases r1 with
      | error e =>
        rw [bind_eval_error h1]
        refine ⟨_, t2, rfl, ?_, ?_⟩
        · intro e' he'
          injection he' with hh
          rw [← hh]
          exact he1 e rfl
        · intro h
          simp at h
      | ok r =>
        rw [bind_eval_ok h1]
        rw [bind_eval_ok (pure_apply () t2)]
        exact tail2 t2
  unfold _setup_tail
  cases echo with
  | false =>
    rw [if_neg (by decide : ¬(false = true))]
    rw [bind_eval_ok (pure_apply () s)]
    exact tail1 s
  | true =>
    rw [if_pos rfl]
    rw [bind_eval_ok (command_apply "E0" s)]
    set s1 : ModemState := { s with written := s.written ++ ["AT" ++ "E0" ++ "\r"] }
    cases verbose with
    | true =>
      rw [if_pos rfl]
      obtain ⟨r1, s2, h1, hw1, hl1, hsl1, he1⟩ := response_run (some "ATE0") 0 s1
      cases r1 with
      | error e =>
        rw [bind_eval_error h1]
        refine ⟨_, s2, rfl, ?_, ?_⟩
        · intro e' he'
          injection he' with hh
          rw [← hh]
          exact he1 e rfl
        · intro h
          simp at h
      | ok r =>
        rw [bind_eval_ok h1]
        obtain ⟨r2, s3, h2, hw2, hl2, hsl2, he2⟩ := response_run (some "OK") 0 s2
        cases r2 with
        | error e =>
          rw [bind_eval_error h2]
          refine ⟨_, s3, rfl, ?_, ?_⟩
          · intro e' he'
            injection he' with hh
            rw [← hh]
            exact he2 e rfl
          · intro h
            simp at h
        | ok r2v =>
          rw [bind_eval_ok h2]
          rw [bind_eval_ok (pure_apply () s3)]
          exact tail1 s3
    | false =>
      rw [if_neg (by decide : ¬(false = true))]
      obtain ⟨r1, s2, h1, hw1, hl1, hsl1, he1⟩ := response_run (some "ATE0\r0") 0 s1
      cases r1 with
      | error e =>
        rw [bind_eval_error h1]
        refine ⟨_, s2, rfl, ?_, ?_⟩
        · intro e' he'
          injection he' with hh
          rw [← hh]
          exact he1 e rfl
        · intro h
          simp at h
      | ok r =>
        rw [bind_eval_ok h1]
        rw [bind_eval_ok (pure_apply () s2)]
        exact tail1 s2

/-- Every `_setup_device` run either succeeds with the line discipline forced
(last write is the `+SBDMTA=0` command) or fails; and the only unstructured
failure it can produce is the UnboundLocalError on `echo`. -/
theorem setup_device_classify (s : ModemState) :
    ∃ res s', _setup_device s = (res, s') ∧
      (∀ e, res = Except.error e →
        (e.structured = true ∨ e = RBError.pyUnboundLocal "echo")) ∧
      (res = Except.ok () → s'.written.getLast? = some "AT+SBDMTA=0\r") := by
  unfold _setup_device
  rw [bind_eval_ok (command_apply "" s)]
  set s1 : ModemState := { s with written := s.written ++ ["AT" ++ "" ++ "\r"] }
  obtain ⟨r1, s2, h1, hw1, hl1, hsl1, he1⟩ := response_run none 0 s1
  cases r1 with
  | error e =>
    rw [bind_eval_error h1]
    refine ⟨_, s2, rfl, ?_, ?_⟩
    · intro e' he'
      injection he' with hh
      rw [← hh]
      exact Or.inl (he1 e rfl)
    · intro h
      simp at h
  | ok rsp =>
    rw [bind_eval_ok h1]
    by_cases hA : rsp = "0"
    · rw [if_pos hA]
      rw [bind_eval_ok (pure_apply ((false, false) : Bool × Bool) s2)]
      obtain ⟨res, s', htail, herr, hok⟩ :=
        setup_tail_run ((false, false) : Bool × Bool).1 ((false, false) : Bool × Bool).2 s2
      exact ⟨res, s', htail, fun e he => Or.inl (herr e he), hok⟩
    · rw [if_neg hA]
      by_cases hB : rsp = "AT\r0"
      · rw [if_pos hB]
        rw [bind_eval_ok (pure_apply ((true, false) : Bool × Bool) s2)]
        obtain ⟨res, s', htail, herr, hok⟩ :=
          setup_tail_run ((true, false) : Bool × Bool).1 ((true, false) : Bool × Bool).2 s2
        exact ⟨res, s', htail, fun e he => Or.inl (herr e he), hok⟩
      · rw [if_neg hB]
        by_cases hC : rsp = "AT" ∨ rsp = ""
        · rw [if_pos hC]
          obtain ⟨r2, s3, h2, hw2, hl2, hsl2, he2⟩ := response_run none 0 s2
          cases r2 with
          | error e =>
            rw [bind_eval_error h2]
            refine ⟨_, s3, rfl, ?_, ?_⟩
            · intro e' he'
              injection he' with hh
              rw [← hh]
              exact Or.inl (he2 e rfl)
            · intro h
              simp at h
          | ok rspp =>
            rw [bind_eval_ok h2]
            by_cases hD : rspp = "OK"
            · rw [if_pos hD]
              rw [bind_eval_ok (pure_apply ((true, true) : Bool × Bool) s3)]
              obtain ⟨res, s', htail, herr, hok⟩ :=
                setup_tail_run ((true, true) : Bool × Bool).1 ((true, true) : Bool × Bool).2 s3
              exact ⟨res, s', htail, fun e he => Or.inl (herr e he), hok⟩
            · rw [if_neg hD]
              rw [bind_eval_ok (pure_apply ((false, true) : Bool × Bool) s3)]
              obtain ⟨res, s', htail, herr, hok⟩ :=
                setup_tail_run ((false, true) : Bool × Bool).1 ((false, true) : Bool × Bool).2 s3
              exact ⟨res, s', htail, fun e he => Or.inl (herr e he), hok⟩
        · rw [if_neg hC]
          rw [bind_eval_error (throwE_apply (RBError.pyUnboundLocal "echo") s2)]
          refine ⟨_, s2, rfl, ?_, ?_⟩
          · intro e' he'
            injection he' with hh
            rw [← hh]
            exact Or.inr rfl
          · intro h
            simp at h

/-- A first probe line whose stripped form is outside the classification
table makes `_setup_device` fail with the unstructured UnboundLocalError. -/
theorem setup_device_deviant (raw : String) (hr : raw ≠ "")
    (htab : pyStrip raw ∉ probeTable)
    (rest w lg : List String) (sl : List Nat) (rd : Nat) :
    _setup_device ⟨raw :: rest, w, lg, sl, rd⟩ =
      (Except.error (RBError.pyUnboundLocal "echo"),
        ⟨rest, w ++ ["AT\r"], lg, sl, rd + 1⟩) := by
  simp only [probeTable, List.mem_cons, List.not_mem_nil, or_false, not_or] at htab
  obtain ⟨h0, h1, h2, h3⟩ := htab
  simp [_setup_device, bind_apply, command, _raw_write, response_ok_none raw hr,
    h0, h1, h2, h3, throwE_apply]

/-! Claim theorems. -/

/-- C1 (counterexample): the claim says any message longer than 340 bytes is
rejected with MessageTooLong and zero wire bytes; but on a 341-byte message
the source proceeds (its guard is `> 360`), writes the `+SBDWT` command to
the wire, and fails with a read Timeout instead. -/
theorem C1_counterexample :
    send_recv (String.mk (List.replicate 341 'x')) ⟨[], [], [], [], 0⟩ =
      (Except.error (RBError.timeout "Read" 0), ⟨[], ["AT+SBDWT\r"], [], [], 1⟩) ∧
    (String.mk (List.replicate 341 'x')).length = 341 ∧
    (send_recv (String.mk (List.replicate 341 'x')) ⟨[], [], [], [], 0⟩).2.written ≠ [] := by
  refine ⟨by decide, by decide, by decide⟩

/-- C1 (amended): `send_recv` rejects messages with `len(msg) > 360` (not
340) with a MessageTooLong failure, performing no wire traffic, no log
append and no sleep: the state is completely untouched. -/
theorem C1_theorem (msg : String) (s : ModemState) (h : 360 < msg.length) :
    send_recv msg s =
      (Except.error (RBError.messageTooLong "Maximum send size is 360 bytes"), s) := by
  unfold send_recv
  rw [if_pos h]
  rfl

/-- C1 witness: a 361-byte message is rejected with state unchanged. -/
theorem C1_witness :
    360 < (String.mk (List.replicate 361 'x')).length ∧
    send_recv (String.mk (List.replicate 361 'x')) ⟨[], [], [], [], 0⟩ =
      (Except.error (RBError.messageTooLong "Maximum send size is 360 bytes"),
        ⟨[], [], [], [], 0⟩) :=
  ⟨by decide, C1_theorem (String.mk (List.replicate 361 'x')) ⟨[], [], [], [], 0⟩ (by decide)⟩

/-- C2 (counterexample): the claim says that with `retry = 0` an empty raw
line is accepted and `""` returned; in the source `response` raises
Timeout{"Read", 0} on an empty raw line even when `retry = 0`. -/
theorem C2_counterexample :
    response none 0 ⟨[], [], [], [], 0⟩ =
      (Except.error (RBError.timeout "Read" 0), ⟨[], [], [], [], 1⟩) ∧
    (response none 0 ⟨[], [], [], [], 0⟩).1 ≠ Except.ok "" := by
  refine ⟨by decide, by decide⟩

/-- C2 (amended): if the raw line is empty then — for EVERY `retry`,
including 0 — up to `retry` additional reads are performed (1 + retry raw
reads in total) and, if all are empty, `response` fails with
Timeout{query="Read", attempts=retry}.  What `retry = 0` callers actually
accept is a whitespace-only (hence non-empty) raw line, which is returned
stripped to `""`. -/
theorem C2_theorem :
    (∀ (expect : Option String) (retry : Nat) (rest w lg : List String)
        (sl : List Nat) (rd : Nat),
      response expect retry ⟨List.replicate (retry + 1) "" ++ rest, w, lg, sl, rd⟩ =
        (Except.error (RBError.timeout "Read" retry),
          ⟨rest, w, lg, sl, rd + 1 + retry⟩)) ∧
    (∀ (raw : String) (rest w lg : List String) (sl : List Nat) (rd : Nat),
      raw ≠ "" → pyStrip raw = "" →
      response none 0 ⟨raw :: rest, w, lg, sl, rd⟩ =
        (Except.ok "", ⟨rest, w, lg, sl, rd + 1⟩)) := by
  refine ⟨response_empty_timeout, ?_⟩
  intro raw rest w lg sl rd h hstrip
  have := response_ok_none raw h 0 rest w lg sl rd
  rw [hstrip] at this
  exact this

/-- C2 witness: with `retry = 2` and three empty reads the call times out
after exactly 3 reads; a lone `"\r\n"` line with `retry = 0` is accepted
and returned as `""`. -/
theorem C2_witness :
    response none 2 ⟨List.replicate 3 "" ++ [], [], [], [], 0⟩ =
      (Except.error (RBError.timeout "Read" 2), ⟨[], [], [], [], 3⟩) ∧
    response none 0 ⟨"\r\n" :: [], [], [], [], 0⟩ =
      (Except.ok "", ⟨[], [], [], [], 1⟩) :=
  ⟨C2_theorem.1 none 2 [] [] [] [] 0,
   C2_theorem.2 "\r\n" [] [] [] [] 0 (by decide) (by decide)⟩

/-- C7: `msg_waiting(status)` is true exactly when `status.mt == 1` or
`status.ra == 1` or `status.msg_waiting > 0`. -/
theorem C7_theorem (status : SBDSXStatus) :
    msg_waiting status = true ↔
      (status.mt = 1 ∨ status.ra = 1 ∨ 0 < status.msg_waiting) := by
  simp [msg_waiting, or_assoc]

/-- C3 (counterexample): the claim says any deviant line after the
`+CSQF:` prefix check yields a DeviceError; but on the line exactly
`"+CSQF:"` the source evaluates `rsp[6]` and dies with an unstructured
IndexError, outside the error taxonomy. -/
theorem C3_counterexample :
    check_sig_strength ⟨["+CSQF:"], [], [], [], 0⟩ =
      (Except.error RBError.pyIndexError, ⟨[], ["AT+CSQF\r"], [], [], 1⟩) ∧
    RBError.pyIndexError.structured = false := by
  refine ⟨by decide, by decide⟩

/-- C3 (amended): for a `+CSQF` response line, `check_sig_strength` returns
the digit at offset 6 when present and followed by a `"0"` line; a line NOT
starting `+CSQF:` yields DeviceError with the raw response; but a line that
passes the prefix check with nothing at offset 6 raises an unstructured
IndexError, and a non-digit at offset 6 raises an unstructured ValueError —
not DeviceError. -/
theorem C3_theorem :
    (∀ (raw : String) (c : Char) (v : Int) (rest w lg : List String)
        (sl : List Nat) (rd : Nat),
      raw ≠ "" → pyTake 6 (pyStrip raw) = "+CSQF:" →
      (pyStrip raw).data[6]? = some c → pyInt (String.mk [c]) = Except.ok v →
      check_sig_strength ⟨raw :: "0" :: rest, w, lg, sl, rd⟩ =
        (Except.ok v, ⟨rest, w ++ ["AT+CSQF\r"], lg, sl, rd + 2⟩)) ∧
    (∀ (raw : String) (rest w lg : List String) (sl : List Nat) (rd : Nat),
      raw ≠ "" → pyTake 6 (pyStrip raw) ≠ "+CSQF:" →
      check_sig_strength ⟨raw :: rest, w, lg, sl, rd⟩ =
        (Except.error
          (RBError.deviceError "Error querying signal strength" (pyStrip raw)),
          ⟨rest, w ++ ["AT+CSQF\r"], lg, sl, rd + 1⟩)) ∧
    (∀ (raw : String) (rest w lg : List String) (sl : List Nat) (rd : Nat),
      raw ≠ "" → pyTake 6 (pyStrip raw) = "+CSQF:" →
      (pyStrip raw).data[6]? = none →
      check_sig_strength ⟨raw :: rest, w, lg, sl, rd⟩ =
        (Except.error RBError.pyIndexError, ⟨rest, w ++ ["AT+CSQF\r"], lg, sl, rd + 1⟩) ∧
      RBError.pyIndexError.structured = false) ∧
    (∀ (raw : String) (c : Char) (e : RBError) (rest w lg : List String)
        (sl : List Nat) (rd : Nat),
      raw ≠ "" → pyTake 6 (pyStrip raw) = "+CSQF:" →
      (pyStrip raw).data[6]? = some c → pyInt (String.mk [c]) = Except.error e →
      check_sig_strength ⟨raw :: rest, w, lg, sl, rd⟩ =
        (Except.error e, ⟨rest, w ++ ["AT+CSQF\r"], lg, sl, rd + 1⟩) ∧
      e.structured = false) := by
  refine ⟨?_, ?_, ?_, ?_⟩
  · intro raw c v rest w lg sl rd hr hp hc hv
    exact sig_run_ok raw hr hp c hc v hv rest w lg sl rd
  · intro raw rest w lg sl rd hr hp
    exact sig_prefix_fail raw hr hp rest w lg sl rd
  · intro raw rest w lg sl rd hr hp hc
    exact ⟨sig_index_fail raw hr hp hc rest w lg sl rd, rfl⟩
  · intro raw c e rest w lg sl rd hr hp hc hv
    refine ⟨sig_value_fail raw hr hp c hc e hv rest w lg sl rd, ?_⟩
    rw [pyInt_error (String.mk [c]) e hv]
    rfl

/-- C3 witness: `"+CSQF:4"` followed by `"0"` yields 4; `"+CSQF: 4"` (a
space at offset 6) dies with ValueError. -/
theorem C3_witness :
    check_sig_strength ⟨["+CSQF:4", "0"], [], [], [], 0⟩ =
      (Except.ok 4, ⟨[], ["AT+CSQF\r"], [], [], 2⟩) ∧
    check_sig_strength ⟨["+CSQF: 4"], [], [], [], 0⟩ =
      (Except.error (RBError.pyValueError " "), ⟨[], ["AT+CSQF\r"], [], [], 1⟩) :=
  ⟨C3_theorem.1 "+CSQF:4" '4' 4 [] [] [] [] 0 (by decide) (by decide) (by decide)
      (by decide),
   (C3_theorem.2.2.2 "+CSQF: 4" ' ' (RBError.pyValueError " ") [] [] [] [] 0
      (by decide) (by decide) (by decide) (by decide)).1⟩

/-- C4 (counterexample): the claim says no first line outside the
classification table leads to an unstructured failure; but the first line
`"OK"` leaves Python's `echo` variable unbound and `_setup_device` dies with
an unstructured UnboundLocalError. -/
theorem C4_counterexample :
    _setup_device ⟨["OK\r\n"], [], [], [], 0⟩ =
      (Except.error (RBError.pyUnboundLocal "echo"), ⟨[], ["AT\r"], [], [], 1⟩) ∧
    (RBError.pyUnboundLocal "echo").structured = false := by
  refine ⟨by decide, by decide⟩

/-- C4 (amended): every `_setup_device` run either completes (its last wire
write being the forced `AT+SBDMTA=0` command) or fails, and its only
possible unstructured failure is the UnboundLocalError on `echo`; that
failure occurs precisely when the stripped first probe line falls outside
the classification table {"0", "AT\r0", "AT", ""} — e.g. on `"OK"`. -/
theorem C4_theorem :
    (∀ s : ModemState, ∃ res s', _setup_device s = (res, s') ∧
      (∀ e, res = Except.error e →
        (e.structured = true ∨ e = RBError.pyUnboundLocal "echo")) ∧
      (res = Except.ok () → s'.written.getLast? = some "AT+SBDMTA=0\r")) ∧
    (∀ (raw : String) (rest w lg : List String) (sl : List Nat) (rd : Nat),
      raw ≠ "" → pyStrip raw ∉ probeTable →
      _setup_device ⟨raw :: rest, w, lg, sl, rd⟩ =
        (Except.error (RBError.pyUnboundLocal "echo"),
          ⟨rest, w ++ ["AT\r"], lg, sl, rd + 1⟩)) := by
  refine ⟨setup_device_classify, ?_⟩
  intro raw rest w lg sl rd hr htab
  exact setup_device_deviant raw hr htab rest w lg sl rd

/-- C4 witness: the deviant first line `"READY"` produces exactly the
UnboundLocalError. -/
theorem C4_witness :
    _setup_device ⟨["READY"], [], [], [], 0⟩ =
      (Except.error (RBError.pyUnboundLocal "echo"), ⟨[], ["AT\r"], [], [], 1⟩) :=
  C4_theorem.2 "READY" [] [] [] [] 0 (by decide) (by decide)

/-- C6: an MT content line after a `+SBDRT:` header is accepted iff it ends
in '0' and (expected_len = -1 or its length is expected_len + 1); on
acceptance `_read_msg_from_buffer` returns the payload with the single
trailing '0' stripped, logs a `"<--- "` line and issues one `+SBDD1`
MT-buffer clear before returning; on rejection it raises
IncorrectContentLength and issues no `+SBDD1`. -/
theorem C6_theorem :
    (∀ (mt_len : Int) (hdr cont : String) (rest w lg : List String)
        (sl : List Nat) (rd : Nat),
      hdr ≠ "" → pyTake 7 (pyStrip hdr) = "+SBDRT:" → cont ≠ "" →
      (pyLast (pyStrip cont) = "0" ∧
        (mt_len = -1 ∨ ((pyStrip cont).length : Int) = mt_len + 1)) →
      _read_msg_from_buffer mt_len
          ⟨hdr :: cont :: "0" :: "0" :: rest, w, lg, sl, rd⟩ =
        (Except.ok (pyDropLast (pyStrip cont)),
          ⟨rest, w ++ ["AT+SBDRT\r", "AT+SBDD1\r"],
            lg ++ ["<--- " ++ pyDropLast (pyStrip cont)], sl, rd + 4⟩)) ∧
    (∀ (mt_len : Int) (hdr cont : String) (rest w lg : List String)
        (sl : List Nat) (rd : Nat),
      hdr ≠ "" → pyTake 7 (pyStrip hdr) = "+SBDRT:" → cont ≠ "" →
      ¬(pyLast (pyStrip cont) = "0" ∧
        (mt_len = -1 ∨ ((pyStrip cont).length : Int) = mt_len + 1)) →
      _read_msg_from_buffer mt_len ⟨hdr :: cont :: rest, w, lg, sl, rd⟩ =
        (Except.error (RBError.incorrectContentLength mt_len (pyStrip cont)),
          ⟨rest, w ++ ["AT+SBDRT\r"], lg, sl, rd + 2⟩) ∧
      ("AT+SBDD1\r" : String) ∉ (["AT+SBDRT\r"] : List String)) := by
  refine ⟨?_, ?_⟩
  · intro mt_len hdr cont rest w lg sl rd hh hp hc hacc
    exact read_msg_accept mt_len hdr cont hh hp hc hacc rest w lg sl rd
  · intro mt_len hdr cont rest w lg sl rd hh hp hc hrej
    exact ⟨read_msg_reject mt_len hdr cont hh hp hc hrej rest w lg sl rd, by decide⟩

/-- C6 witness: content `"WORLD0"` against expected length 5 round-trips to
`"WORLD"` with a log line and a `+SBDD1` clear; against expected length 7 it
is rejected with IncorrectContentLength and no clear. -/
theorem C6_witness :
    _read_msg_from_buffer 5 ⟨["+SBDRT:", "WORLD0", "0", "0"], [], [], [], 0⟩ =
      (Except.ok "WORLD",
        ⟨[], ["AT+SBDRT\r", "AT+SBDD1\r"], ["<--- WORLD"], [], 4⟩) ∧
    _read_msg_from_buffer 7 ⟨["+SBDRT:", "WORLD0"], [], [], [], 0⟩ =
      (Except.error (RBError.incorrectContentLength 7 "WORLD0"),
        ⟨[], ["AT+SBDRT\r"], [], [], 2⟩) :=
  ⟨C6_theorem.1 5 "+SBDRT:" "WORLD0" [] [] [] [] 0 (by decide) (by decide)
      (by decide) (by decide),
   (C6_theorem.2 7 "+SBDRT:" "WORLD0" [] [] [] [] 0 (by decide) (by decide)
      (by decide) (by decide)).1⟩

/-- C10: when a `+SBDSX:` / `+SBDIX:` / `+SBDIXA:` prefixed line carries a
comma list with a non-integer token, or one without exactly six elements,
`_check_status` and `_session` fail with an unstructured error (the
integer-parse ValueError from `parse_comma_list`, or the tuple-arity
TypeError from the namedtuple constructor) — not with any variant of the
documented taxonomy. -/
theorem C10_theorem :
    (∀ (raw : String) (e : RBError) (rest w lg : List String) (sl : List Nat) (rd : Nat),
      raw ≠ "" → pyTake 7 (pyStrip raw) = "+SBDSX:" →
      parse_comma_list (pyDrop 7 (pyStrip raw)) = Except.error e →
      _check_status ⟨raw :: "0" :: rest, w, lg, sl, rd⟩ =
        (Except.error e, ⟨rest, w ++ ["AT+SBDSX\r"], lg, sl, rd + 2⟩) ∧
      e.structured = false) ∧
    (∀ (raw : String) (l : List Int) (rest w lg : List String) (sl : List Nat) (rd : Nat),
      raw ≠ "" → pyTake 7 (pyStrip raw) = "+SBDSX:" →
      parse_comma_list (pyDrop 7 (pyStrip raw)) = Except.ok l → l.length ≠ 6 →
      _check_status ⟨raw :: "0" :: rest, w, lg, sl, rd⟩ =
        (Except.error RBError.pyTypeError, ⟨rest, w ++ ["AT+SBDSX\r"], lg, sl, rd + 2⟩) ∧
      RBError.pyTypeError.structured = false) ∧
    (∀ (a : Bool) (raw : String) (e : RBError) (rest w lg : List String)
        (sl : List Nat) (rd : Nat),
      raw ≠ "" → pyTake 7 (pyStrip raw) = "+SBDIX:" →
      parse_comma_list (pyDrop 7 (pyStrip raw)) = Except.error e →
      _session a ⟨raw :: "0" :: rest, w, lg, sl, rd⟩ =
        (Except.error e, ⟨rest, w ++ [sessionCmd a], lg, sl, rd + 2⟩) ∧
      e.structured = false) ∧
    (∀ (a : Bool) (raw : String) (e : RBError) (rest w lg : List String)
        (sl : List Nat) (rd : Nat),
      raw ≠ "" → pyTake 7 (pyStrip raw) ≠ "+SBDIX:" →
      pyTake 8 (pyStrip raw) = "+SBDIXA:" →
      parse_comma_list (pyDrop 8 (pyStrip raw)) = Except.error e →
      _session a ⟨raw :: "0" :: rest, w, lg, sl, rd⟩ =
        (Except.error e, ⟨rest, w ++ [sessionCmd a], lg, sl, rd + 2⟩) ∧
      e.structured = false) ∧
    (∀ (a : Bool) (raw : String) (l : List Int) (rest w lg : List String)
        (sl : List Nat) (rd : Nat),
      raw ≠ "" → pyTake 7 (pyStrip raw) = "+SBDIX:" →
      parse_comma_list (pyDrop 7 (pyStrip raw)) = Except.ok l → l.length ≠ 6 →
      _session a ⟨raw :: "0" :: rest, w, lg, sl, rd⟩ =
        (Except.error RBError.pyTypeError, ⟨rest, w ++ [sessionCmd a], lg, sl, rd + 2⟩) ∧
      RBError.pyTypeError.structured = false) := by
  have hunstr : ∀ (t : String) (e : RBError),
      parse_comma_list t = Except.error e → e.structured = false := by
    intro t e h
    obtain ⟨str, hs⟩ := parse_comma_list_error t e h
    rw [hs]
    rfl
  refine ⟨?_, ?_, ?_, ?_, ?_⟩
  · intro raw e rest w lg sl rd hr hp hpl
    exact ⟨check_status_badparse raw hr hp e hpl rest w lg sl rd, hunstr _ e hpl⟩
  · intro raw l rest w lg sl rd hr hp hpl hlen
    exact ⟨check_status_badarity raw hr hp l hpl hlen rest w lg sl rd, rfl⟩
  · intro a raw e rest w lg sl rd hr hp hpl
    exact ⟨session_badparse a raw hr hp e hpl rest w lg sl rd, hunstr _ e hpl⟩
  · intro a raw e rest w lg sl rd hr hp7 hp8 hpl
    exact ⟨session_badparse_alert a raw hr hp7 hp8 e hpl rest w lg sl rd, hunstr _ e hpl⟩
  · intro a raw l rest w lg sl rd hr hp hpl hlen
    exact ⟨session_badarity a raw hr hp l hpl hlen rest w lg sl rd, rfl⟩

/-- C10 witness: `"+SBDSX: a,2,3,4,5,6"` dies with the ValueError on
`" a"`; `"+SBDIX:1,2,3,4,5"` (five elements) dies with the TypeError. -/
theorem C10_witness :
    _check_status ⟨["+SBDSX: a,2,3,4,5,6", "0"], [], [], [], 0⟩ =
      (Except.error (RBError.pyValueError " a"), ⟨[], ["AT+SBDSX\r"], [], [], 2⟩) ∧
    _session false ⟨["+SBDIX:1,2,3,4,5", "0"], [], [], [], 0⟩ =
      (Except.error RBError.pyTypeError, ⟨[], ["AT+SBDIX\r"], [], [], 2⟩) :=
  ⟨(C10_theorem.1 "+SBDSX: a,2,3,4,5,6" (RBError.pyValueError " a") [] [] [] [] 0
      (by decide) (by decide) (by decide)).1,
   (C10_theorem.2.2.2.2 false "+SBDIX:1,2,3,4,5" [1, 2, 3, 4, 5] [] [] [] [] 0
      (by decide) (by decide) (by decide) (by decide)).1⟩

/-- C9: a session status with `mt = 2` (the data model's 'error' value)
raises nothing and triggers no MT read, exactly like `mt = 0`: in
`_send_buffer` the attempt still succeeds when `mo ≤ 4` (no `+SBDRT` in the
trace, empty incidental list); in `_recv_buffer` it counts as a failed
attempt toward the 3-attempt Timeout{"Buffer recv", 3}. -/
theorem C9_theorem :
    (∀ (p l : String) (pre : SBDSXStatus) (st : SBDIXStatus)
        (rest w lg : List String) (sl : List Nat) (rd : Nat),
      SBDSXLine p pre → pre.mt ≠ 1 → SBDIXLine l st → st.mt = 2 → st.mo ≤ 4 →
      ∃ rd', _send_buffer ⟨p :: "0" :: l :: "0" :: "0" :: "0" :: rest, w, lg, sl, rd⟩ =
        (Except.ok [],
          ⟨rest, w ++ ["AT+SBDSX\r"] ++ ["AT+SBDIX\r"] ++ ["AT+SBDD0\r"],
            lg, sl, rd'⟩)) ∧
    (∀ (a : Bool) (l1 l2 l3 : String) (st1 st2 st3 : SBDIXStatus)
        (rest w lg : List String) (sl : List Nat) (rd : Nat),
      SBDIXLine l1 st1 → st1.mt = 2 → SBDIXLine l2 st2 → st2.mt = 2 →
      SBDIXLine l3 st3 → st3.mt = 2 →
      _recv_buffer a ⟨l1 :: "0" :: l2 :: "0" :: l3 :: "0" :: rest, w, lg, sl, rd⟩ =
        (Except.error (RBError.timeout "Buffer recv" 3),
          ⟨rest, w ++ [sessionCmd a, sessionCmd a, sessionCmd a], lg,
            sl ++ [1, 1, 1], rd + 6⟩)) := by
  refine ⟨?_, ?_⟩
  · intro p l pre st rest w lg sl rd hp hpre hx hmt2 hmo
    have hmt : st.mt ≠ 1 := by
      rw [hmt2]
      decide
    have hscript : (l :: "0" :: "0" :: "0" :: rest : List String) =
        sessSeg l st "" "" ++ ("0" :: "0" :: rest) := by
      simp [sessSeg, hmt]
    rw [hscript]
    obtain ⟨rd', hrun⟩ := send_buffer_succ1 p pre hp hpre l st hx hmo "" ""
      (fun h => absurd h hmt) rest w lg sl rd
    refine ⟨rd', ?_⟩
    rw [hrun]
    simp [mtVal, mtLog, sessWrites, hmt]
  · intro a l1 l2 l3 st1 st2 st3 rest w lg sl rd hx1 hm1 hx2 hm2 hx3 hm3
    refine recv_buffer_fail3 a l1 st1 hx1 ?_ l2 st2 hx2 ?_ l3 st3 hx3 ?_ rest w lg sl rd
    · rw [hm1]; decide
    · rw [hm2]; decide
    · rw [hm3]; decide

/-- C9 witness: three straight sessions reporting `mt = 2` make
`_recv_buffer` fail with Timeout{"Buffer recv", 3}, with no `+SBDRT` read
attempted. -/
theorem C9_witness :
    _recv_buffer false
        ⟨["+SBDIX:18,1,2,0,0,0", "0", "+SBDIX:18,2,2,0,0,0", "0",
          "+SBDIX:18,3,2,0,0,0", "0"], [], [], [], 0⟩ =
      (Except.error (RBError.timeout "Buffer recv" 3),
        ⟨[], ["AT+SBDIX\r", "AT+SBDIX\r", "AT+SBDIX\r"], [], [1, 1, 1], 6⟩) := by
  have h := C9_theorem.2 false "+SBDIX:18,1,2,0,0,0" "+SBDIX:18,2,2,0,0,0"
    "+SBDIX:18,3,2,0,0,0" ⟨18, 1, 2, 0, 0, 0⟩ ⟨18, 2, 2, 0, 0, 0⟩ ⟨18, 3, 2, 0, 0, 0⟩
    [] [] [] [] 0 (by decide) (by decide) (by decide) (by decide) (by decide) (by decide)
  simpa [sessionCmd] using h

theorem sbdd0_not_in (st1 st2 st3 : SBDIXStatus) :
    ("AT+SBDD0\r" : String) ∉
      (["AT+SBDSX\r"] ++ sessWrites st1 ++ sessWrites st2 ++ sessWrites st3 :
        List String) := by
  have h : ∀ st : SBDIXStatus, ("AT+SBDD0\r" : String) ∉ sessWrites st := by
    intro st
    by_cases hmt : st.mt = 1 <;> simp +decide [sessWrites, hmt]
  simp +decide [List.mem_append, h st1, h st2, h st3]

/-- C5: a `_send_buffer` run issues at most 3 `+SBDIX` sessions on any
script; on a well-formed script (no stale MT) it succeeds exactly when one
of the up-to-3 sessions reports `mo ≤ 4` — stopping at the first such
session and then issuing exactly one `+SBDD0` MO-buffer clear — and when
all three sessions report `mo > 4` it fails with Timeout{"Buffer send", 3}
with no `+SBDD0` issued; every session with `mt = 1` contributes exactly
one incidental MT read to the returned list. -/
theorem C5_theorem :
    (∀ s : ModemState, ∃ res s', _send_buffer s = (res, s') ∧
      sbdixCount s'.written ≤ sbdixCount s.written + 3) ∧
    (∀ (p : String) (pre : SBDSXStatus) (l1 hdr1 cont1 : String) (st1 : SBDIXStatus)
        (rest w lg : List String) (sl : List Nat) (rd : Nat),
      SBDSXLine p pre → pre.mt ≠ 1 → SBDIXLine l1 st1 → st1.mo ≤ 4 →
      (st1.mt = 1 → SBDRTSeg hdr1 cont1 st1.mt_len) →
      ∃ rd', _send_buffer
          ⟨p :: "0" :: (sessSeg l1 st1 hdr1 cont1 ++ ("0" :: "0" :: rest)), w, lg, sl, rd⟩ =
        (Except.ok (mtVal st1 cont1),
          ⟨rest, w ++ ["AT+SBDSX\r"] ++ sessWrites st1 ++ ["AT+SBDD0\r"],
            lg ++ mtLog st1 cont1, sl, rd'⟩)) ∧
    (∀ (p : String) (pre : SBDSXStatus)
        (l1 hdr1 cont1 : String) (st1 : SBDIXStatus)
        (l2 hdr2 cont2 : String) (st2 : SBDIXStatus)
        (rest w lg : List String) (sl : List Nat) (rd : Nat),
      SBDSXLine p pre → pre.mt ≠ 1 →
      SBDIXLine l1 st1 → ¬st1.mo ≤ 4 → (st1.mt = 1 → SBDRTSeg hdr1 cont1 st1.mt_len) →
      SBDIXLine l2 st2 → st2.mo ≤ 4 → (st2.mt = 1 → SBDRTSeg hdr2 cont2 st2.mt_len) →
      ∃ rd', _send_buffer
          ⟨p :: "0" :: (sessSeg l1 st1 hdr1 cont1 ++
            (sessSeg l2 st2 hdr2 cont2 ++ ("0" :: "0" :: rest))), w, lg, sl, rd⟩ =
        (Except.ok (mtVal st1 cont1 ++ mtVal st2 cont2),
          ⟨rest, w ++ ["AT+SBDSX\r"] ++ sessWrites st1 ++ sessWrites st2 ++ ["AT+SBDD0\r"],
            lg ++ mtLog st1 cont1 ++ mtLog st2 cont2, sl ++ [1], rd'⟩)) ∧
    (∀ (p : String) (pre : SBDSXStatus)
        (l1 hdr1 cont1 : String) (st1 : SBDIXStatus)
        (l2 hdr2 cont2 : String) (st2 : SBDIXStatus)
        (l3 hdr3 cont3 : String) (st3 : SBDIXStatus)
        (rest w lg : List String) (sl : List Nat) (rd : Nat),
      SBDSXLine p pre → pre.mt ≠ 1 →
      SBDIXLine l1 st1 → ¬st1.mo ≤ 4 → (st1.mt = 1 → SBDRTSeg hdr1 cont1 st1.mt_len) →
      SBDIXLine l2 st2 → ¬st2.mo ≤ 4 → (st2.mt = 1 → SBDRTSeg hdr2 cont2 st2.mt_len) →
      SBDIXLine l3 st3 → st3.mo ≤ 4 → (st3.mt = 1 → SBDRTSeg hdr3 cont3 st3.mt_len) →
      ∃ rd', _send_buffer
          ⟨p :: "0" :: (sessSeg l1 st1 hdr1 cont1 ++ (sessSeg l2 st2 hdr2 cont2 ++
            (sessSeg l3 st3 hdr3 cont3 ++ ("0" :: "0" :: rest)))), w, lg, sl, rd⟩ =
        (Except.ok (mtVal st1 cont1 ++ mtVal st2 cont2 ++ mtVal st3 cont3),
          ⟨rest, w ++ ["AT+SBDSX\r"] ++ sessWrites st1 ++ sessWrites st2 ++
              sessWrites st3 ++ ["AT+SBDD0\r"],
            lg ++ mtLog st1 cont1 ++ mtLog st2 cont2 ++ mtLog st3 cont3,
            sl ++ [1, 1], rd'⟩)) ∧
    (∀ (p : String) (pre : SBDSXStatus)
        (l1 hdr1 cont1 : String) (st1 : SBDIXStatus)
        (l2 hdr2 cont2 : String) (st2 : SBDIXStatus)
        (l3 hdr3 cont3 : String) (st3 : SBDIXStatus)
        (rest w lg : List String) (sl : List Nat) (rd : Nat),
      SBDSXLine p pre → pre.mt ≠ 1 →
      SBDIXLine l1 st1 → ¬st1.mo ≤ 4 → (st1.mt = 1 → SBDRTSeg hdr1 cont1 st1.mt_len) →
      SBDIXLine l2 st2 → ¬st2.mo ≤ 4 → (st2.mt = 1 → SBDRTSeg hdr2 cont2 st2.mt_len) →
      SBDIXLine l3 st3 → ¬st3.mo ≤ 4 → (st3.mt = 1 → SBDRTSeg hdr3 cont3 st3.mt_len) →
      ∃ rd', _send_buffer
          ⟨p :: "0" :: (sessSeg l1 st1 hdr1 cont1 ++ (sessSeg l2 st2 hdr2 cont2 ++
            (sessSeg l3 st3 hdr3 cont3 ++ rest))), w, lg, sl, rd⟩ =
        (Except.error (RBError.timeout "Buffer send" 3),
          ⟨rest, w ++ ["AT+SBDSX\r"] ++ sessWrites st1 ++ sessWrites st2 ++ sessWrites st3,
            lg ++ mtLog st1 cont1 ++ mtLog st2 cont2 ++ mtLog st3 cont3,
            sl ++ [1, 1, 1], rd'⟩) ∧
      ("AT+SBDD0\r" : String) ∉
        (["AT+SBDSX\r"] ++ sessWrites st1 ++ sessWrites st2 ++ sessWrites st3 :
          List String)) := by
  refine ⟨send_buffer_bound, ?_, ?_, ?_, ?_⟩
  · intro p pre l1 hdr1 cont1 st1 rest w lg sl rd hp hpre hx1 hmo1 hseg1
    exact send_buffer_succ1 p pre hp hpre l1 st1 hx1 hmo1 hdr1 cont1 hseg1 rest w lg sl rd
  · intro p pre l1 hdr1 cont1 st1 l2 hdr2 cont2 st2 rest w lg sl rd
      hp hpre hx1 hmo1 hseg1 hx2 hmo2 hseg2
    exact send_buffer_succ2 p pre hp hpre l1 st1 hx1 hmo1 hdr1 cont1 hseg1
      l2 st2 hx2 hmo2 hdr2 cont2 hseg2 rest w lg sl rd
  · intro p pre l1 hdr1 cont1 st1 l2 hdr2 cont2 st2 l3 hdr3 cont3 st3 rest w lg sl rd
      hp hpre hx1 hmo1 hseg1 hx2 hmo2 hseg2 hx3 hmo3 hseg3
    exact send_buffer_succ3 p pre hp hpre l1 st1 hx1 hmo1 hdr1 cont1 hseg1
      l2 st2 hx2 hmo2 hdr2 cont2 hseg2 l3 st3 hx3 hmo3 hdr3 cont3 hseg3 rest w lg sl rd
  · intro p pre l1 hdr1 cont1 st1 l2 hdr2 cont2 st2 l3 hdr3 cont3 st3 rest w lg sl rd
      hp hpre hx1 hmo1 hseg1 hx2 hmo2 hseg2 hx3 hmo3 hseg3
    obtain ⟨rd', hrun⟩ := send_buffer_fail3 p pre hp hpre l1 st1 hx1 hmo1 hdr1 cont1 hseg1
      l2 st2 hx2 hmo2 hdr2 cont2 hseg2 l3 st3 hx3 hmo3 hdr3 cont3 hseg3 rest w lg sl rd
    exact ⟨rd', hrun, sbdd0_not_in st1 st2 st3⟩

/-- C5 witness: `mo = 4` on the first session is a success (boundary value):
one `+SBDIX`, one `+SBDD0`, empty incidental list, no sleeps. -/
theorem C5_witness :
    (_send_buffer ⟨["+SBDSX:0,0,0,0,0,0", "0", "+SBDIX:4,1,0,0,0,0", "0", "0", "0"],
        [], [], [], 0⟩).1 = Except.ok [] ∧
    (_send_buffer ⟨["+SBDSX:0,0,0,0,0,0", "0", "+SBDIX:4,1,0,0,0,0", "0", "0", "0"],
        [], [], [], 0⟩).2.written = ["AT+SBDSX\r", "AT+SBDIX\r", "AT+SBDD0\r"] ∧
    (_send_buffer ⟨["+SBDSX:0,0,0,0,0,0", "0", "+SBDIX:4,1,0,0,0,0", "0", "0", "0"],
        [], [], [], 0⟩).2.sleeps = [] := by
  have hscript : (["+SBDSX:0,0,0,0,0,0", "0", "+SBDIX:4,1,0,0,0,0", "0", "0", "0"] :
      List String) = "+SBDSX:0,0,0,0,0,0" :: "0" ::
        (sessSeg "+SBDIX:4,1,0,0,0,0" ⟨4, 1, 0, 0, 0, 0⟩ "" "" ++ ("0" :: "0" :: [])) := by
    simp +decide [sessSeg]
  rw [hscript]
  obtain ⟨rd', hrun⟩ := C5_theorem.2.1 "+SBDSX:0,0,0,0,0,0" ⟨0, 0, 0, 0, 0, 0⟩
    "+SBDIX:4,1,0,0,0,0" "" "" ⟨4, 1, 0, 0, 0, 0⟩ [] [] [] [] 0
    (by decide) (by decide) (by decide) (by decide) (fun h => absurd h (by decide))
  rw [hrun]
  refine ⟨by simp +decide [mtVal], by simp +decide [sessWrites], rfl⟩

/-- C8 (counterexample): the claim names the Timeout query tag
`"Network time"`; the source raises `RBTimeoutError("Network time query",
20)` — a different tag. -/
theorem C8_counterexample :
    _msstm_ok ⟨msstmLines (List.replicate 20 false), [], [], [], 0⟩ =
      (Except.error (RBError.timeout "Network time query" 20),
        ⟨[], List.replicate 20 "AT-MSSTM\r", [], List.replicate 19 1, 40⟩) ∧
    RBError.timeout "Network time query" 20 ≠ RBError.timeout "Network time" 20 := by
  constructor
  · have h := msstmLoop_allFalse (List.replicate 20 false) (by simp) [] [] [] [] 0
    unfold _msstm_ok
    simpa using h
  · decide

/-- C8 (amended): `_msstm_ok` issues at most 20 `-MSSTM` queries and sleeps
at most 19 times on every run; it returns as soon as one query reports
network service available (k failures give k+1 queries and exactly k
sleeps, so no sleep follows a successful attempt); if all 20 attempts fail
it raises Timeout with attempt count 20 and query tag "Network time query"
(not "Network time"), after exactly 19 sleeps — none after the last
attempt. -/
theorem C8_theorem :
    (∀ s : ModemState, ∃ res s', _msstm_ok s = (res, s') ∧
      (∃ k, k ≤ 20 ∧ s'.written = s.written ++ List.replicate k "AT-MSSTM\r") ∧
      s'.sleeps.length ≤ s.sleeps.length + 19 ∧ s'.msgLog = s.msgLog) ∧
    (∀ (k : Nat) (rest w lg : List String) (sl : List Nat) (rd : Nat), k < 20 →
      _msstm_ok ⟨msstmLines (List.replicate k false ++ [true]) ++ rest, w, lg, sl, rd⟩ =
        (Except.ok (), ⟨rest, w ++ List.replicate (k + 1) "AT-MSSTM\r", lg,
          sl ++ List.replicate k 1, rd + 2 * (k + 1)⟩)) ∧
    (∀ (rest w lg : List String) (sl : List Nat) (rd : Nat),
      _msstm_ok ⟨msstmLines (List.replicate 20 false) ++ rest, w, lg, sl, rd⟩ =
        (Except.error (RBError.timeout "Network time query" 20),
          ⟨rest, w ++ List.replicate 20 "AT-MSSTM\r", lg,
            sl ++ List.replicate 19 1, rd + 40⟩)) := by
  refine ⟨msstm_ok_bound, ?_, ?_⟩
  · intro k rest w lg sl rd hk
    have h := msstmLoop_firstTrue k 20 hk rest w lg sl rd
    unfold _msstm_ok
    exact h
  · intro rest w lg sl rd
    have h := msstmLoop_allFalse (List.replicate 20 false) (by simp) rest w lg sl rd
    unfold _msstm_ok
    simpa using h

/-- C8 witness: a first successful attempt returns after one query and no
sleep. -/
theorem C8_witness :
    _msstm_ok ⟨msstmLines (List.replicate 0 false ++ [true]) ++ [], [], [], [], 0⟩ =
      (Except.ok (), ⟨[], List.replicate 1 "AT-MSSTM\r", [], List.replicate 0 1, 2⟩) := by
  have h := C8_theorem.2.1 0 [] [] [] [] 0 (by decide)
  simpa using h

end RockBlockSpec
